import Mathlib

/-!
# Verification of the Financial-Metrics-Analyzer metric pipeline

Shallow embedding of the metric computation pipeline of the repository
(`finance_clean/normalize.py`, `finance_clean/validate.py`,
`finance_clean/compute.py`) and proofs of the specified properties.

Python floats are modelled by `FVal`: an exact rational together with the
special values NaN and signed infinity.  Arithmetic on `FVal` follows the
IEEE-754 special-value rules (NaN propagation, infinity arithmetic,
comparisons with NaN are false); finite arithmetic is exact rational
arithmetic (rounding error and overflow of the binary format are abstracted
away, which is the standard shallow-embedding choice: no claim below depends
on binary rounding).  NaN doubles as pandas' missing-value marker, exactly as
in the source, where `np.nan` is the "unknown" marker.

A pandas DataFrame is modelled by `DF`: an ordered list of column labels
(fiscal periods, modelled as naturals since the source only sorts them) and
an ordered list of rows, each a line-item label with its cell values aligned
with the columns.  The Python dict `info` is modelled by the `Info` structure
(absent key and a `None` value both modelled as `none`, as both behave as
missing for the `.get` calls in the source).

The network fetch (`fetch.get_financials`) and the CAPM alpha computation
(`calculate_alpha`) are external collaborators: `compute_all` below takes the
raw statement set and the alpha result as inputs.  Per its Python signature,
`calculate_alpha` returns a float or `None`; it is modelled as `Option ℚ`.
-/

/-- A Python/NumPy double: NaN, a signed infinity (`true` = +∞), or a finite
value modelled as an exact rational. -/
inductive FVal where
  | nan : FVal
  | inf : Bool → FVal
  | fin : ℚ → FVal
deriving DecidableEq, Repr

namespace FVal

/-- `pd.isna`: true exactly on NaN (NumPy infinities are not NA). -/
def isna : FVal → Bool
  | nan => true
  | _ => false

/-- `np.isinf`. -/
def isinf : FVal → Bool
  | inf _ => true
  | _ => false

/-- The value is an ordinary finite float. -/
def isFin : FVal → Bool
  | fin _ => true
  | _ => false

/-- IEEE negation. -/
def fneg : FVal → FVal
  | nan => nan
  | inf s => inf (!s)
  | fin q => fin (-q)

/-- IEEE addition: NaN propagates, ∞ + (-∞) = NaN. -/
def fadd : FVal → FVal → FVal
  | nan, _ => nan
  | _, nan => nan
  | inf s, inf t => if s = t then inf s else nan
  | inf s, fin _ => inf s
  | fin _, inf t => inf t
  | fin a, fin b => fin (a + b)

/-- IEEE subtraction. -/
def fsub (a b : FVal) : FVal := fadd a (fneg b)

/-- IEEE multiplication: NaN propagates, ∞ · 0 = NaN. -/
def fmul : FVal → FVal → FVal
  | nan, _ => nan
  | _, nan => nan
  | inf s, inf t => inf (s = t)
  | inf s, fin b => if b = 0 then nan else inf (s = decide (0 < b))
  | fin a, inf t => if a = 0 then nan else inf (t = decide (0 < a))
  | fin a, fin b => fin (a * b)

/-- IEEE division: NaN propagates, ∞/∞ = NaN, finite/∞ = 0, x/0 with x ≠ 0
gives infinity (zero here stands for IEEE +0). -/
def fdiv : FVal → FVal → FVal
  | nan, _ => nan
  | _, nan => nan
  | inf _, inf _ => nan
  | inf s, fin b => if b = 0 then inf s else inf (s = decide (0 < b))
  | fin _, inf _ => fin 0
  | fin a, fin b =>
    if b = 0 then (if a = 0 then nan else inf (decide (0 < a))) else fin (a / b)

/-- IEEE absolute value. -/
def fabs : FVal → FVal
  | nan => nan
  | inf _ => inf true
  | fin q => fin |q|

/-- IEEE `<`: any comparison with NaN is false. -/
def flt : FVal → FVal → Bool
  | nan, _ => false
  | _, nan => false
  | fin a, fin b => decide (a < b)
  | fin _, inf s => s
  | inf s, fin _ => !s
  | inf s, inf t => !s && t

/-- IEEE `<=`: any comparison with NaN is false. -/
def fle : FVal → FVal → Bool
  | nan, _ => false
  | _, nan => false
  | fin a, fin b => decide (a ≤ b)
  | fin _, inf s => s
  | inf s, fin _ => !s
  | inf s, inf t => !s || t

/-- IEEE `==`: NaN is not equal to anything, including itself. -/
def feq : FVal → FVal → Bool
  | fin a, fin b => decide (a = b)
  | inf s, inf t => s = t
  | _, _ => false

end FVal

/-- Round-half-even (banker's rounding) to an integer, as Python `round`. -/
def rhe (q : ℚ) : ℤ :=
  let f := ⌊q⌋
  let r := q - (f : ℚ)
  if r < 1/2 then f
  else if 1/2 < r then f + 1
  else if f % 2 = 0 then f else f + 1

/-- Python `round(q, 4)`. -/
def round4 (q : ℚ) : ℚ := (rhe (q * 10000) : ℚ) / 10000

/-- `round(x, 4)` on a float: NaN and infinities are returned unchanged. -/
def fround4 : FVal → FVal
  | FVal.fin q => FVal.fin (round4 q)
  | v => v

/-- An output leaf `round(x, 4) if not pd.isna(x) else None`
(the pervasive leaf pattern of `compute_all`'s result dictionary). -/
def leafOf (x : FVal) : Option FVal :=
  if x.isna then none else some (fround4 x)

/-- A statement table (pandas DataFrame): ordered column labels (fiscal
periods) and ordered rows, each a line-item label with its cell values
aligned with the columns. -/
structure DF where
  cols : List Nat
  rows : List (String × List FVal)
deriving DecidableEq, Repr

/-- The market-info snapshot (the keys of the `info` dict that the core
reads).  `none` models both an absent key and a `None` value. -/
structure Info where
  sharesOutstanding : Option FVal
  currentPrice : Option FVal
  regularMarketPrice : Option FVal
  dividendRate : Option FVal
  bookValue : Option FVal
  beta : Option FVal
  currency : Option String
deriving DecidableEq, Repr

/-- The raw statement set handed to the pipeline by the (external) fetch
collaborator: three statement tables plus the info snapshot. -/
structure RawData where
  income : DF
  balance : DF
  cashflow : DF
  info : Info
deriving DecidableEq, Repr

/-- First cell of a row series that is not NaN, else the default
(the `for val in value` loop of `safe_get_field`). -/
def firstNonNull (vals : List FVal) (default : FVal) : FVal :=
  match vals.find? (fun v => !v.isna) with
  | some v => v
  | none => default

/-- `value[year_idx]`: the cell of a row at a given column label. -/
def lookupCell (cols : List Nat) (vals : List FVal) (y : Nat) : Option FVal :=
  ((cols.zip vals).find? (fun p => p.1 == y)).map (fun p => p.2)

/-- `normalize.safe_get_field` (identical to `validate.safe_get_field`):
try each candidate field name; on the first row found, return the cell at the
requested period if that period is a column and the cell is not NaN; if the
period is not among the columns, return the first non-NaN cell of the row;
otherwise the default.  The Python `default` parameter is `np.nan` at every
call site of the repository, so it is fixed to NaN here. -/
def safe_get_field (df : DF) (field_names : List String) (year_idx : Option Nat) : FVal :=
  match field_names with
  | [] => FVal.nan
  | f :: rest =>
    match df.rows.find? (fun r => r.1 == f) with
    | some r =>
      match year_idx with
      | some y =>
        if y ∈ df.cols then
          match lookupCell df.cols r.2 y with
          | some v => if v.isna then FVal.nan else v
          | none => FVal.nan
        else firstNonNull r.2 FVal.nan
      | none => firstNonNull r.2 FVal.nan
    | none => safe_get_field df rest year_idx

/-- The `1e-12` near-zero threshold of `safe_div`. -/
def divEps : ℚ := 1 / 1000000000000

/-- `normalize.safe_div`: NaN if an operand is NaN, if the denominator is
within `1e-12` of zero, or if the division result is infinite; otherwise the
quotient.  The Python `default` parameter is left at `np.nan` by every caller
in the repository, so it is fixed to NaN here. -/
def safe_div (numerator denominator : FVal) : FVal :=
  if numerator.isna || denominator.isna then FVal.nan
  else if FVal.flt (FVal.fabs denominator) (FVal.fin divEps) then FVal.nan
  else
    let result := FVal.fdiv numerator denominator
    if result.isinf then FVal.nan else result

/-- `normalize.avg`: NaN if either operand is NaN or non-finite, else the
arithmetic mean. -/
def avg (x y : FVal) : FVal :=
  if x.isna || y.isna then FVal.nan
  else if !x.isFin || !y.isFin then FVal.nan
  else
    match x, y with
    | FVal.fin a, FVal.fin b => FVal.fin ((a + b) / 2)
    | _, _ => FVal.nan

/-- The synonym table of `normalize.normalize_field_names`
(`field_mappings` in the source, in source order). -/
def field_mappings : List (String × String) := [
  ("Total Revenue", "TotalRevenue"),
  ("Revenue", "TotalRevenue"),
  ("Operating Revenue", "TotalRevenue"),
  ("Net Sales", "TotalRevenue"),
  ("Sales", "TotalRevenue"),
  ("Cost Of Revenue", "CostOfRevenue"),
  ("Cost of Goods Sold", "CostOfRevenue"),
  ("COGS", "CostOfRevenue"),
  ("Gross Profit", "GrossProfit"),
  ("Gross Income", "GrossProfit"),
  ("Operating Income", "OperatingIncome"),
  ("EBIT", "OperatingIncome"),
  ("Earnings Before Interest And Taxes", "OperatingIncome"),
  ("Net Income", "NetIncome"),
  ("Net Earnings", "NetIncome"),
  ("Net Income Common Stockholders", "NetIncome"),
  ("Pretax Income", "PretaxIncome"),
  ("Income Before Tax", "PretaxIncome"),
  ("Earnings Before Tax", "PretaxIncome"),
  ("Selling General Administrative", "SellingGeneralAdministrative"),
  ("Selling General And Administration", "SellingGeneralAdministrative"),
  ("SG&A", "SellingGeneralAdministrative"),
  ("Selling, General & Administrative", "SellingGeneralAdministrative"),
  ("Income Tax Expense", "IncomeTaxExpense"),
  ("Tax Provision", "IncomeTaxExpense"),
  ("Income Tax", "IncomeTaxExpense"),
  ("Interest Expense", "InterestExpense"),
  ("Interest Paid", "InterestExpense"),
  ("Total Assets", "TotalAssets"),
  ("Total Current Assets", "TotalCurrentAssets"),
  ("Current Assets", "TotalCurrentAssets"),
  ("Total Liabilities", "TotalLiabilities"),
  ("Total Liab", "TotalLiabilities"),
  ("Total Liabilities Net Minority Interest", "TotalLiabilities"),
  ("Total Liabilities And Stockholders Equity", "TotalLiabilities"),
  ("Total Current Liabilities", "TotalCurrentLiabilities"),
  ("Current Liabilities", "TotalCurrentLiabilities"),
  ("Total Stockholder Equity", "TotalStockholderEquity"),
  ("Total Equity", "TotalStockholderEquity"),
  ("Stockholders Equity", "TotalStockholderEquity"),
  ("Inventory", "Inventory"),
  ("Net PPE", "NetPPE"),
  ("Property Plant Equipment", "NetPPE"),
  ("Net Property Plant Equipment", "NetPPE"),
  ("Retained Earnings", "RetainedEarnings"),
  ("Net Receivables", "NetReceivables"),
  ("Accounts Receivable", "NetReceivables"),
  ("Total Cash From Operating Activities", "TotalCashFromOperatingActivities"),
  ("Operating Cash Flow", "TotalCashFromOperatingActivities"),
  ("Cash From Operations", "TotalCashFromOperatingActivities"),
  ("Depreciation", "Depreciation"),
  ("Depreciation And Amortization", "Depreciation"),
  ("Cash Dividends Paid", "CashDividendsPaid"),
  ("Dividends Paid", "CashDividendsPaid")]

/-- `normalize.normalize_field_names`: rewrite each row label through the
synonym table (labels not in the table pass through unchanged) and keep only
the first occurrence of each normalized label. -/
def normalize_field_names (df : DF) : DF :=
  ⟨df.cols,
   df.rows.foldl
     (fun acc r =>
       let normalized := ((field_mappings.find? (fun m => m.1 == r.1)).map (fun m => m.2)).getD r.1
       if acc.any (fun a => a.1 == normalized) then acc else acc ++ [(normalized, r.2)])
     []⟩

/-- Insert into a descending-sorted list. -/
def insertDesc (x : Nat) : List Nat → List Nat
  | [] => [x]
  | y :: ys => if y ≤ x then x :: y :: ys else y :: insertDesc x ys

/-- `sorted(s, reverse=True)`. -/
def sortDesc (l : List Nat) : List Nat := l.foldr insertDesc []

/-- The set of fiscal periods common to the three statements
(`common_years` in `select_two_years`; a Python set, hence deduplicated). -/
def commonYears (fd : RawData) : List Nat :=
  (fd.income.cols.filter
    (fun y => decide (y ∈ fd.balance.cols) && decide (y ∈ fd.cashflow.cols))).dedup

/-- The output of `normalize.select_two_years`: the three normalized tables,
the info snapshot, the two chosen fiscal periods (newest first) and the
currency code. -/
structure SelData where
  income : DF
  balance : DF
  cashflow : DF
  info : Info
  years : List Nat
  currency : String
deriving DecidableEq, Repr

/-- `normalize.select_two_years`: fail when fewer than two fiscal periods are
common to the three statements, else normalize field names and keep the two
most recent common periods.  The numeric coercion step (`pd.to_numeric` with
`errors="coerce"`) is the identity in this model, since cells are already
numeric-or-NaN `FVal`s.  The raised `ValueError` is modelled as `Except.error`
carrying the same message. -/
def select_two_years (fd : RawData) : Except String SelData :=
  let common := commonYears fd
  if common.length < 2 then
    Except.error ("Insufficient common years: " ++ toString common.length ++ " found")
  else
    Except.ok
      { income := normalize_field_names fd.income
        balance := normalize_field_names fd.balance
        cashflow := normalize_field_names fd.cashflow
        info := fd.info
        years := (sortDesc common).take 2
        currency := fd.info.currency.getD "USD" }

/-- One period's entry in the result of `validate.check_accounting_equation`.
The Python dict has shape `{ok, delta, assets, liabilities, equity,
calculated_total}` on the computed branch and `{ok, delta, error}` on the
failure branch; absent keys are `none`. -/
structure PeriodCheck where
  ok : Bool
  delta : FVal
  assets : Option FVal
  liabilities : Option FVal
  equity : Option FVal
  calculated_total : Option FVal
  error : Option String
deriving DecidableEq, Repr

/-- `validate.check_accounting_equation`: for every column of the balance
sheet, fetch Assets, Liabilities, Equity; if Assets > 0 report the relative
delta `|Assets - (Liabilities + Equity)| / Assets` against the tolerance,
else report failure with infinite delta.  The result is keyed by `str(col)`.
The tolerance parameter defaults to `0.01` and is left at its default by the
only caller (`compute_all`). -/
def check_accounting_equation (balance_df : DF) (tol : ℚ) : List (String × PeriodCheck) :=
  balance_df.cols.map (fun col =>
    let ta := safe_get_field balance_df ["TotalAssets"] (some col)
    let tl := safe_get_field balance_df ["TotalLiabilities"] (some col)
    let te := safe_get_field balance_df ["TotalStockholderEquity"] (some col)
    if FVal.flt (FVal.fin 0) ta then
      let diff := FVal.fdiv (FVal.fabs (FVal.fsub ta (FVal.fadd tl te))) ta
      (toString col,
       ⟨FVal.fle diff (FVal.fin tol), diff, some ta, some tl, some te,
        some (FVal.fadd tl te), none⟩)
    else
      (toString col,
       ⟨false, FVal.inf true, none, none, none, none,
        some "Total Assets is zero or missing"⟩))

/-- The fields `compute_all` declares as needed, income section. -/
def needed_income : List String :=
  ["TotalRevenue", "GrossProfit", "OperatingIncome", "NetIncome",
   "SellingGeneralAdministrative", "IncomeTaxExpense", "InterestExpense"]

/-- The fields `compute_all` declares as needed, balance section. -/
def needed_balance : List String :=
  ["TotalAssets", "TotalLiabilities", "TotalStockholderEquity",
   "TotalCurrentAssets", "TotalCurrentLiabilities", "Inventory", "NetPPE",
   "RetainedEarnings", "NetReceivables"]

/-- The fields `compute_all` declares as needed, cashflow section. -/
def needed_cashflow : List String :=
  ["TotalCashFromOperatingActivities", "Depreciation", "CashDividendsPaid"]

/-- One section of `validate.collect_missing`: the needed fields whose row is
absent from the table, tagged `"section:field"`. -/
def missing_in (sect : String) (df : DF) (fields : List String) : List String :=
  fields.foldl
    (fun acc f =>
      if (df.rows.find? (fun r => r.1 == f)).isSome then acc
      else acc ++ [sect ++ ":" ++ f])
    []

/-- `validate.collect_missing` applied as `compute_all` applies it: the three
sections in dict insertion order. -/
def collect_missing (income balance cashflow : DF) : List String :=
  missing_in "income" income needed_income ++
  missing_in "balance" balance needed_balance ++
  missing_in "cashflow" cashflow needed_cashflow

/-- `years[0]`: the most recent common fiscal period. -/
def y_t (d : SelData) : Nat := d.years.getD 0 0

/-- `years[1]`: the prior fiscal period. -/
def y_t1 (d : SelData) : Nat := d.years.getD 1 0

/-- `TotalRevenue_t` of `compute_all`. -/
def TotalRevenue_t (d : SelData) : FVal := safe_get_field d.income ["TotalRevenue"] (some (y_t d))

/-- `TotalRevenue_t1` of `compute_all`. -/
def TotalRevenue_t1 (d : SelData) : FVal := safe_get_field d.income ["TotalRevenue"] (some (y_t1 d))

/-- `GrossProfit_t` of `compute_all`. -/
def GrossProfit_t (d : SelData) : FVal := safe_get_field d.income ["GrossProfit"] (some (y_t d))

/-- `GrossProfit_t1` of `compute_all`. -/
def GrossProfit_t1 (d : SelData) : FVal := safe_get_field d.income ["GrossProfit"] (some (y_t1 d))

/-- `OperatingIncome_t` of `compute_all`. -/
def OperatingIncome_t (d : SelData) : FVal := safe_get_field d.income ["OperatingIncome"] (some (y_t d))

/-- `OperatingIncome_t1` of `compute_all`. -/
def OperatingIncome_t1 (d : SelData) : FVal := safe_get_field d.income ["OperatingIncome"] (some (y_t1 d))

/-- `NetIncome_t` of `compute_all`. -/
def NetIncome_t (d : SelData) : FVal := safe_get_field d.income ["NetIncome"] (some (y_t d))

/-- `NetIncome_t1` of `compute_all`. -/
def NetIncome_t1 (d : SelData) : FVal := safe_get_field d.income ["NetIncome"] (some (y_t1 d))

/-- `PretaxIncome_t` of `compute_all`. -/
def PretaxIncome_t (d : SelData) : FVal := safe_get_field d.income ["PretaxIncome"] (some (y_t d))

/-- `SellingGeneralAdministrative_t` of `compute_all`. -/
def SellingGeneralAdministrative_t (d : SelData) : FVal :=
  safe_get_field d.income ["SellingGeneralAdministrative"] (some (y_t d))

/-- `SellingGeneralAdministrative_t1` of `compute_all`. -/
def SellingGeneralAdministrative_t1 (d : SelData) : FVal :=
  safe_get_field d.income ["SellingGeneralAdministrative"] (some (y_t1 d))

/-- `IncomeTaxExpense_t` of `compute_all`. -/
def IncomeTaxExpense_t (d : SelData) : FVal := safe_get_field d.income ["IncomeTaxExpense"] (some (y_t d))

/-- `InterestExpense_t` of `compute_all`. -/
def InterestExpense_t (d : SelData) : FVal := safe_get_field d.income ["InterestExpense"] (some (y_t d))

/-- `TotalAssets_t` of `compute_all`. -/
def TotalAssets_t (d : SelData) : FVal := safe_get_field d.balance ["TotalAssets"] (some (y_t d))

/-- `TotalAssets_t1` of `compute_all`. -/
def TotalAssets_t1 (d : SelData) : FVal := safe_get_field d.balance ["TotalAssets"] (some (y_t1 d))

/-- `TotalLiabilities_t` of `compute_all`. -/
def TotalLiabilities_t (d : SelData) : FVal := safe_get_field d.balance ["TotalLiabilities"] (some (y_t d))

/-- `TotalLiabilities_t1` of `compute_all`. -/
def TotalLiabilities_t1 (d : SelData) : FVal := safe_get_field d.balance ["TotalLiabilities"] (some (y_t1 d))

/-- `TotalStockholderEquity_t` of `compute_all`. -/
def TotalStockholderEquity_t (d : SelData) : FVal :=
  safe_get_field d.balance ["TotalStockholderEquity"] (some (y_t d))

/-- `TotalStockholderEquity_t1` of `compute_all`. -/
def TotalStockholderEquity_t1 (d : SelData) : FVal :=
  safe_get_field d.balance ["TotalStockholderEquity"] (some (y_t1 d))

/-- `TotalCurrentAssets_t` of `compute_all`. -/
def TotalCurrentAssets_t (d : SelData) : FVal := safe_get_field d.balance ["TotalCurrentAssets"] (some (y_t d))

/-- `TotalCurrentLiabilities_t` of `compute_all`. -/
def TotalCurrentLiabilities_t (d : SelData) : FVal :=
  safe_get_field d.balance ["TotalCurrentLiabilities"] (some (y_t d))

/-- `Inventory_t` of `compute_all`. -/
def Inventory_t (d : SelData) : FVal := safe_get_field d.balance ["Inventory"] (some (y_t d))

/-- `NetPPE_t` of `compute_all`. -/
def NetPPE_t (d : SelData) : FVal := safe_get_field d.balance ["NetPPE"] (some (y_t d))

/-- `NetPPE_t1` of `compute_all`. -/
def NetPPE_t1 (d : SelData) : FVal := safe_get_field d.balance ["NetPPE"] (some (y_t1 d))

/-- `RetainedEarnings_t` of `compute_all`. -/
def RetainedEarnings_t (d : SelData) : FVal := safe_get_field d.balance ["RetainedEarnings"] (some (y_t d))

/-- `NetReceivables_t` of `compute_all`. -/
def NetReceivables_t (d : SelData) : FVal := safe_get_field d.balance ["NetReceivables"] (some (y_t d))

/-- `NetReceivables_t1` of `compute_all`. -/
def NetReceivables_t1 (d : SelData) : FVal := safe_get_field d.balance ["NetReceivables"] (some (y_t1 d))

/-- `TotalCashFromOperatingActivities_t` of `compute_all`. -/
def TotalCashFromOperatingActivities_t (d : SelData) : FVal :=
  safe_get_field d.cashflow ["TotalCashFromOperatingActivities"] (some (y_t d))

/-- `TotalCashFromOperatingActivities_t1` of `compute_all`. -/
def TotalCashFromOperatingActivities_t1 (d : SelData) : FVal :=
  safe_get_field d.cashflow ["TotalCashFromOperatingActivities"] (some (y_t1 d))

/-- `Depreciation_t` of `compute_all`. -/
def Depreciation_t (d : SelData) : FVal := safe_get_field d.cashflow ["Depreciation"] (some (y_t d))

/-- `Depreciation_t1` of `compute_all`. -/
def Depreciation_t1 (d : SelData) : FVal := safe_get_field d.cashflow ["Depreciation"] (some (y_t1 d))

/-- `CashDividendsPaid_t` of `compute_all`. -/
def CashDividendsPaid_t (d : SelData) : FVal := safe_get_field d.cashflow ["CashDividendsPaid"] (some (y_t d))

/-- `shares = info.get('sharesOutstanding', np.nan)`. -/
def shares (d : SelData) : FVal := d.info.sharesOutstanding.getD FVal.nan

/-- `price = info.get('currentPrice') or info.get('regularMarketPrice', np.nan)`:
Python `or` falls through when the first value is absent, `None`, or the
falsy float `0.0`. -/
def price (d : SelData) : FVal :=
  match d.info.currentPrice with
  | some v => if v = FVal.fin 0 then d.info.regularMarketPrice.getD FVal.nan else v
  | none => d.info.regularMarketPrice.getD FVal.nan

/-- `dividend_rate = info.get('dividendRate', np.nan)`. -/
def dividend_rate (d : SelData) : FVal := d.info.dividendRate.getD FVal.nan

/-- `book_value = info.get('bookValue', np.nan)`. -/
def book_value (d : SelData) : FVal := d.info.bookValue.getD FVal.nan

/-- `avg_assets` of `compute_all`. -/
def avg_assets (d : SelData) : FVal := avg (TotalAssets_t d) (TotalAssets_t1 d)

/-- `avg_equity` of `compute_all`. -/
def avg_equity (d : SelData) : FVal := avg (TotalStockholderEquity_t d) (TotalStockholderEquity_t1 d)

/-- `current_ratio` of `compute_all`. -/
def current_ratio (d : SelData) : FVal := safe_div (TotalCurrentAssets_t d) (TotalCurrentLiabilities_t d)

/-- `quick_ratio` of `compute_all`. -/
def quick_ratio (d : SelData) : FVal :=
  safe_div (FVal.fsub (TotalCurrentAssets_t d) (Inventory_t d)) (TotalCurrentLiabilities_t d)

/-- `debt_to_equity` of `compute_all`. -/
def debt_to_equity (d : SelData) : FVal := safe_div (TotalLiabilities_t d) (TotalStockholderEquity_t d)

/-- `roe` of `compute_all`. -/
def roe (d : SelData) : FVal := safe_div (NetIncome_t d) (avg_equity d)

/-- `roa` of `compute_all`. -/
def roa (d : SelData) : FVal := safe_div (NetIncome_t d) (avg_assets d)

/-- `npm` of `compute_all`. -/
def npm (d : SelData) : FVal := safe_div (NetIncome_t d) (TotalRevenue_t d)

/-- `asset_turnover` of `compute_all`. -/
def asset_turnover (d : SelData) : FVal := safe_div (TotalRevenue_t d) (avg_assets d)

/-- `equity_multiplier` of `compute_all`. -/
def equity_multiplier (d : SelData) : FVal := safe_div (TotalAssets_t d) (TotalStockholderEquity_t d)

/-- `roe_dupont_3 = npm * asset_turnover * equity_multiplier` (raw float
multiplication, left-associated as in Python). -/
def roe_dupont_3 (d : SelData) : FVal :=
  FVal.fmul (FVal.fmul (npm d) (asset_turnover d)) (equity_multiplier d)

/-- `tax_burden` of `compute_all`. -/
def tax_burden (d : SelData) : FVal :=
  if !(PretaxIncome_t d).isna && !FVal.feq (PretaxIncome_t d) (FVal.fin 0) then
    safe_div (NetIncome_t d) (PretaxIncome_t d)
  else FVal.nan

/-- `interest_burden` of `compute_all`. -/
def interest_burden (d : SelData) : FVal :=
  if !(OperatingIncome_t d).isna && !FVal.feq (OperatingIncome_t d) (FVal.fin 0) then
    safe_div (PretaxIncome_t d) (OperatingIncome_t d)
  else FVal.nan

/-- `operating_margin` of `compute_all`. -/
def operating_margin (d : SelData) : FVal := safe_div (OperatingIncome_t d) (TotalRevenue_t d)

/-- `roe_dupont_5`: the five-factor product, left-associated. -/
def roe_dupont_5 (d : SelData) : FVal :=
  FVal.fmul (FVal.fmul (FVal.fmul (FVal.fmul (tax_burden d) (interest_burden d))
    (operating_margin d)) (asset_turnover d)) (equity_multiplier d)

/-- `roe_adjusted = roe_dupont_3`. -/
def roe_adjusted (d : SelData) : FVal := roe_dupont_3 d

/-- `eps_t` of `compute_all`. -/
def eps_t (d : SelData) : FVal :=
  if !(shares d).isna && FVal.flt (FVal.fin 0) (shares d) then
    safe_div (NetIncome_t d) (shares d)
  else FVal.nan

/-- `eps_t1` of `compute_all`. -/
def eps_t1 (d : SelData) : FVal :=
  if !(shares d).isna && FVal.flt (FVal.fin 0) (shares d) then
    safe_div (NetIncome_t1 d) (shares d)
  else FVal.nan

/-- `bps_t` of `compute_all` (falls back to the info book value). -/
def bps_t (d : SelData) : FVal :=
  if !(shares d).isna && FVal.flt (FVal.fin 0) (shares d) then
    safe_div (TotalStockholderEquity_t d) (shares d)
  else book_value d

/-- `sps_t` of `compute_all`. -/
def sps_t (d : SelData) : FVal :=
  if !(shares d).isna && FVal.flt (FVal.fin 0) (shares d) then
    safe_div (TotalRevenue_t d) (shares d)
  else FVal.nan

/-- `growth_eps` of `compute_all`. -/
def growth_eps (d : SelData) : FVal :=
  if !(eps_t1 d).isna && FVal.flt (FVal.fin 0) (eps_t1 d) then
    safe_div (FVal.fsub (eps_t d) (eps_t1 d)) (eps_t1 d)
  else FVal.nan

/-- `pe` of `compute_all`. -/
def pe (d : SelData) : FVal := safe_div (price d) (eps_t d)

/-- `pb` of `compute_all`. -/
def pb (d : SelData) : FVal := safe_div (price d) (bps_t d)

/-- `ps` of `compute_all`. -/
def ps (d : SelData) : FVal := safe_div (price d) (sps_t d)

/-- `peg` of `compute_all`. -/
def peg (d : SelData) : FVal :=
  if !(pe d).isna && !(growth_eps d).isna && FVal.flt (FVal.fin 0) (growth_eps d) then
    safe_div (pe d) (FVal.fmul (FVal.fin 100) (growth_eps d))
  else FVal.nan

/-- `div_ps` of `compute_all`: the info dividend rate, else the per-share
dividend derived from cash dividends paid. -/
def div_ps (d : SelData) : FVal :=
  if !(dividend_rate d).isna then dividend_rate d
  else if !(CashDividendsPaid_t d).isna && !(shares d).isna && FVal.flt (FVal.fin 0) (shares d) then
    safe_div (FVal.fneg (CashDividendsPaid_t d)) (shares d)
  else FVal.nan

/-- `dividend_yield` of `compute_all`. -/
def dividend_yield (d : SelData) : FVal := safe_div (div_ps d) (price d)

/-- `dividend_payout_ratio` of `compute_all`. -/
def dividend_payout_ratio (d : SelData) : FVal :=
  if !(eps_t d).isna && FVal.flt (FVal.fin 0) (eps_t d) then safe_div (div_ps d) (eps_t d)
  else FVal.nan

/-- `dividend_coverage_ratio` of `compute_all`. -/
def dividend_coverage_ratio (d : SelData) : FVal :=
  if !(div_ps d).isna && FVal.flt (FVal.fin 0) (div_ps d) then safe_div (eps_t d) (div_ps d)
  else FVal.nan

/-- `ROA_t` of the Piotroski block. -/
def ROA_t (d : SelData) : FVal := safe_div (NetIncome_t d) (TotalAssets_t d)

/-- `ROA_t1` of the Piotroski block. -/
def ROA_t1 (d : SelData) : FVal := safe_div (NetIncome_t1 d) (TotalAssets_t1 d)

/-- `CFO_t` of the Piotroski block. -/
def CFO_t (d : SelData) : FVal := TotalCashFromOperatingActivities_t d

/-- `TotalCurrentAssets_t1`, fetched for Piotroski F6. -/
def TotalCurrentAssets_t1 (d : SelData) : FVal :=
  safe_get_field d.balance ["TotalCurrentAssets"] (some (y_t1 d))

/-- `TotalCurrentLiabilities_t1`, fetched for Piotroski F6. -/
def TotalCurrentLiabilities_t1 (d : SelData) : FVal :=
  safe_get_field d.balance ["TotalCurrentLiabilities"] (some (y_t1 d))

/-- Piotroski F1: `1 if ROA_t > 0 else 0`. -/
def F1 (d : SelData) : Nat := if FVal.flt (FVal.fin 0) (ROA_t d) then 1 else 0

/-- Piotroski F2: `1 if CFO_t > 0 else 0`. -/
def F2 (d : SelData) : Nat := if FVal.flt (FVal.fin 0) (CFO_t d) then 1 else 0

/-- Piotroski F3: `1 if ROA_t > ROA_t1 else 0`. -/
def F3 (d : SelData) : Nat := if FVal.flt (ROA_t1 d) (ROA_t d) then 1 else 0

/-- Piotroski F4: `1 if CFO_t > NetIncome_t else 0`. -/
def F4 (d : SelData) : Nat := if FVal.flt (NetIncome_t d) (CFO_t d) then 1 else 0

/-- Piotroski F5: leverage decreased year over year. -/
def F5 (d : SelData) : Nat :=
  if FVal.flt (safe_div (TotalLiabilities_t d) (TotalAssets_t d))
      (safe_div (TotalLiabilities_t1 d) (TotalAssets_t1 d)) then 1 else 0

/-- Piotroski F6: current ratio increased year over year. -/
def F6 (d : SelData) : Nat :=
  if FVal.flt (safe_div (TotalCurrentAssets_t1 d) (TotalCurrentLiabilities_t1 d))
      (safe_div (TotalCurrentAssets_t d) (TotalCurrentLiabilities_t d)) then 1 else 0

/-- Piotroski F7: `1 if shares <= shares else 0` (the source's simplified
share-dilution check). -/
def F7 (d : SelData) : Nat := if FVal.fle (shares d) (shares d) then 1 else 0

/-- Piotroski F8: gross margin increased year over year. -/
def F8 (d : SelData) : Nat :=
  if FVal.flt (safe_div (GrossProfit_t1 d) (TotalRevenue_t1 d))
      (safe_div (GrossProfit_t d) (TotalRevenue_t d)) then 1 else 0

/-- Piotroski F9: asset turnover increased year over year. -/
def F9 (d : SelData) : Nat :=
  if FVal.flt (safe_div (TotalRevenue_t1 d) (TotalAssets_t1 d))
      (safe_div (TotalRevenue_t d) (TotalAssets_t d)) then 1 else 0

/-- The `piotroski_signals` dict, in insertion order. -/
def piotroski_signals (d : SelData) : List (String × Nat) :=
  [("F1", F1 d), ("F2", F2 d), ("F3", F3 d), ("F4", F4 d), ("F5", F5 d),
   ("F6", F6 d), ("F7", F7 d), ("F8", F8 d), ("F9", F9 d)]

/-- `piotroski_score = sum(piotroski_signals.values())`. -/
def piotroski_score (d : SelData) : Nat :=
  F1 d + F2 d + F3 d + F4 d + F5 d + F6 d + F7 d + F8 d + F9 d

/-- The display string `f"{piotroski_score:.2f}/9"`; the score is a Python
int, which the `.2f` format renders as its digits followed by `.00`. -/
def piotroski_fscore_display (d : SelData) : String :=
  toString (piotroski_score d) ++ ".00/9"

/-- Beneish `DSRI`. -/
def DSRI (d : SelData) : FVal :=
  safe_div (safe_div (NetReceivables_t d) (TotalRevenue_t d))
    (safe_div (NetReceivables_t1 d) (TotalRevenue_t1 d))

/-- Beneish `GMI`. -/
def GMI (d : SelData) : FVal :=
  safe_div (safe_div (GrossProfit_t1 d) (TotalRevenue_t1 d))
    (safe_div (GrossProfit_t d) (TotalRevenue_t d))

/-- Beneish `AQI` (the prior-year current assets are re-fetched inline in the
source). -/
def AQI (d : SelData) : FVal :=
  safe_div
    (FVal.fsub (FVal.fin 1) (safe_div (FVal.fadd (TotalCurrentAssets_t d) (NetPPE_t d)) (TotalAssets_t d)))
    (FVal.fsub (FVal.fin 1) (safe_div
      (FVal.fadd (safe_get_field d.balance ["TotalCurrentAssets"] (some (y_t1 d))) (NetPPE_t1 d))
      (TotalAssets_t1 d)))

/-- Beneish `SGI`. -/
def SGI (d : SelData) : FVal := safe_div (TotalRevenue_t d) (TotalRevenue_t1 d)

/-- Beneish `DEPI`. -/
def DEPI (d : SelData) : FVal :=
  safe_div (safe_div (Depreciation_t1 d) (FVal.fadd (Depreciation_t1 d) (NetPPE_t1 d)))
    (safe_div (Depreciation_t d) (FVal.fadd (Depreciation_t d) (NetPPE_t d)))

/-- Beneish `SGAI`. -/
def SGAI (d : SelData) : FVal :=
  safe_div (safe_div (SellingGeneralAdministrative_t d) (TotalRevenue_t d))
    (safe_div (SellingGeneralAdministrative_t1 d) (TotalRevenue_t1 d))

/-- Beneish `LVGI`. -/
def LVGI (d : SelData) : FVal :=
  safe_div (safe_div (TotalLiabilities_t d) (TotalAssets_t d))
    (safe_div (TotalLiabilities_t1 d) (TotalAssets_t1 d))

/-- Beneish `TATA`. -/
def TATA (d : SelData) : FVal :=
  safe_div (FVal.fsub (OperatingIncome_t d) (TotalCashFromOperatingActivities_t d)) (TotalAssets_t d)

/-- The `beneish_components` dict, in insertion order. -/
def beneish_components (d : SelData) : List (String × FVal) :=
  [("DSRI", DSRI d), ("GMI", GMI d), ("AQI", AQI d), ("SGI", SGI d),
   ("DEPI", DEPI d), ("SGAI", SGAI d), ("LVGI", LVGI d), ("TATA", TATA d)]

/-- `missing_components`: names of the Beneish components that are NaN, in
dict order. -/
def missing_components (d : SelData) : List String :=
  ((beneish_components d).filter (fun p => p.2.isna)).map (fun p => p.1)

/-- The Beneish composite float expression of the source, evaluated with
float arithmetic (left-associated, as Python associates `+` and `-`). -/
def beneish_formula (d : SelData) : FVal :=
  FVal.fsub
    (FVal.fadd
      (FVal.fsub
        (FVal.fadd
          (FVal.fadd
            (FVal.fadd
              (FVal.fadd
                (FVal.fadd (FVal.fin (-4.84)) (FVal.fmul (FVal.fin 0.92) (DSRI d)))
                (FVal.fmul (FVal.fin 0.528) (GMI d)))
              (FVal.fmul (FVal.fin 0.404) (AQI d)))
            (FVal.fmul (FVal.fin 0.892) (SGI d)))
          (FVal.fmul (FVal.fin 0.115) (DEPI d)))
        (FVal.fmul (FVal.fin 0.172) (SGAI d)))
      (FVal.fmul (FVal.fin 4.679) (TATA d)))
    (FVal.fmul (FVal.fin 0.327) (LVGI d))

/-- `beneish_m_score`: `None` when any component is missing, else the
composite. -/
def beneish_m_score (d : SelData) : Option FVal :=
  if missing_components d ≠ [] then none else some (beneish_formula d)

/-- `beneish_reason`: the missing components, named, or `None`. -/
def beneish_reason (d : SelData) : Option String :=
  if missing_components d ≠ [] then
    some ("insufficient_fields: " ++ String.intercalate ", " (missing_components d))
  else none

/-- `working_capital = TotalCurrentAssets_t - TotalCurrentLiabilities_t`
(raw float subtraction). -/
def working_capital (d : SelData) : FVal :=
  FVal.fsub (TotalCurrentAssets_t d) (TotalCurrentLiabilities_t d)

/-- `retained_earnings`, re-fetched in the Altman block. -/
def retained_earnings (d : SelData) : FVal :=
  safe_get_field d.balance ["RetainedEarnings"] (some (y_t d))

/-- `ebit = OperatingIncome_t`. -/
def ebit (d : SelData) : FVal := OperatingIncome_t d

/-- Altman component A. -/
def altman_a (d : SelData) : FVal := safe_div (working_capital d) (TotalAssets_t d)

/-- Altman component B. -/
def altman_b (d : SelData) : FVal := safe_div (retained_earnings d) (TotalAssets_t d)

/-- Altman component C. -/
def altman_c (d : SelData) : FVal := safe_div (ebit d) (TotalAssets_t d)

/-- Altman component D (book equity over liabilities, the source's proxy). -/
def altman_d (d : SelData) : FVal := safe_div (TotalStockholderEquity_t d) (TotalLiabilities_t d)

/-- Altman component E. -/
def altman_e (d : SelData) : FVal := safe_div (TotalRevenue_t d) (TotalAssets_t d)

/-- The `altman_components` list of the source. -/
def altman_components (d : SelData) : List FVal :=
  [altman_a d, altman_b d, altman_c d, altman_d d, altman_e d]

/-- The Altman composite float expression `1.2A + 1.4B + 3.3C + 0.6D + 1.0E`,
left-associated. -/
def altman_formula (d : SelData) : FVal :=
  FVal.fadd
    (FVal.fadd
      (FVal.fadd
        (FVal.fadd (FVal.fmul (FVal.fin 1.2) (altman_a d)) (FVal.fmul (FVal.fin 1.4) (altman_b d)))
        (FVal.fmul (FVal.fin 3.3) (altman_c d)))
      (FVal.fmul (FVal.fin 0.6) (altman_d d)))
    (FVal.fmul (FVal.fin 1.0) (altman_e d))

/-- `altman_z_score`: `None` when any component is NaN, else the composite. -/
def altman_z_score (d : SelData) : Option FVal :=
  if (altman_components d).any (fun c => c.isna) then none else some (altman_formula d)

/-- The fixed reason string of the Altman failure branch. -/
def altman_reason_text : String :=
  "insufficient_fields: missing working capital, retained earnings, EBIT, equity, or revenue data"

/-- `altman_reason`. -/
def altman_reason (d : SelData) : Option String :=
  if (altman_components d).any (fun c => c.isna) then some altman_reason_text else none

/-- `notes`: one note per missing needed canonical field. -/
def notes (d : SelData) : List String :=
  (collect_missing d.income d.balance d.cashflow).map (fun f => "Missing field: " ++ f)

/-- The `ratios` section of the output document. -/
structure Ratios where
  current : Option FVal
  quick : Option FVal
  debt_to_equity : Option FVal
  roe : Option FVal
  roa : Option FVal
  roe_adjusted : Option FVal
deriving DecidableEq, Repr

/-- The `dupont.roe_3step` subsection. -/
structure Dupont3 where
  npm : Option FVal
  asset_turnover : Option FVal
  equity_multiplier : Option FVal
  roe : Option FVal
deriving DecidableEq, Repr

/-- The `dupont.roe_5step` subsection. -/
structure Dupont5 where
  tax_burden : Option FVal
  interest_burden : Option FVal
  operating_margin : Option FVal
  asset_turnover : Option FVal
  equity_multiplier : Option FVal
  roe : Option FVal
deriving DecidableEq, Repr

/-- The `dupont` section. -/
structure DupontSec where
  roe_3step : Dupont3
  roe_5step : Dupont5
deriving DecidableEq, Repr

/-- The `piotroski` section (`score` is `None` only on the error path). -/
structure PiotroskiSec where
  score : Option Nat
  fscore_display : String
  signals : List (String × Nat)
deriving DecidableEq, Repr

/-- The `beneish` section. -/
structure BeneishSec where
  m : Option FVal
  reason : Option String
  components : List (String × Option FVal)
deriving DecidableEq, Repr

/-- The `altman` section. -/
structure AltmanSec where
  z : Option FVal
  z_prime : Option FVal
  reason : Option String
  components : List (String × Option FVal)
deriving DecidableEq, Repr

/-- The `price_based` section. -/
structure PriceBasedSec where
  pe : Option FVal
  pb : Option FVal
  ps : Option FVal
  peg : Option FVal
deriving DecidableEq, Repr

/-- The `dividends` section. -/
structure DividendsSec where
  dividend_yield : Option FVal
  dividend_payout_ratio : Option FVal
  dividend_coverage_ratio : Option FVal
deriving DecidableEq, Repr

/-- The document returned by `compute_all`.  `error` is present only on the
degraded path; the sections that the degraded path empties to `{}` are
`Option`s, with `none` modelling the empty dict. -/
structure Output where
  ticker : String
  error : Option String
  currency : String
  years : List String
  validation : List (String × PeriodCheck)
  ratios : Option Ratios
  dupont : Option DupontSec
  piotroski : PiotroskiSec
  beneish : BeneishSec
  altman : AltmanSec
  price_based : Option PriceBasedSec
  dividends : Option DividendsSec
  alpha : Option FVal
  notes : List String
deriving DecidableEq, Repr

/-- The success-path document of `compute_all`, assembled from the selected
data `d` and the externally computed alpha (`calculate_alpha` returns a float
or `None`; `compute_all` rounds it when present). -/
def success_doc (ticker : String) (d : SelData) (alphaExt : Option ℚ) : Output :=
  { ticker := ticker
    error := none
    currency := d.currency
    years := d.years.map toString
    validation := check_accounting_equation d.balance (1/100)
    ratios := some
      { current := leafOf (current_ratio d)
        quick := leafOf (quick_ratio d)
        debt_to_equity := leafOf (debt_to_equity d)
        roe := leafOf (roe d)
        roa := leafOf (roa d)
        roe_adjusted := leafOf (roe_adjusted d) }
    dupont := some
      { roe_3step :=
          { npm := leafOf (npm d)
            asset_turnover := leafOf (asset_turnover d)
            equity_multiplier := leafOf (equity_multiplier d)
            roe := leafOf (roe_dupont_3 d) }
        roe_5step :=
          { tax_burden := leafOf (tax_burden d)
            interest_burden := leafOf (interest_burden d)
            operating_margin := leafOf (operating_margin d)
            asset_turnover := leafOf (asset_turnover d)
            equity_multiplier := leafOf (equity_multiplier d)
            roe := leafOf (roe_dupont_5 d) } }
    piotroski :=
      { score := some (piotroski_score d)
        fscore_display := piotroski_fscore_display d
        signals := piotroski_signals d }
    beneish :=
      { m := (beneish_m_score d).map fround4
        reason := beneish_reason d
        components := (beneish_components d).map (fun p => (p.1, leafOf p.2)) }
    altman :=
      { z := (altman_z_score d).map fround4
        z_prime := none
        reason := altman_reason d
        components :=
          [("a", leafOf (altman_a d)), ("b", leafOf (altman_b d)),
           ("c", leafOf (altman_c d)), ("d", leafOf (altman_d d)),
           ("e", leafOf (altman_e d))] }
    price_based := some
      { pe := leafOf (pe d)
        pb := leafOf (pb d)
        ps := leafOf (ps d)
        peg := leafOf (peg d) }
    dividends := some
      { dividend_yield := leafOf (dividend_yield d)
        dividend_payout_ratio := leafOf (dividend_payout_ratio d)
        dividend_coverage_ratio := leafOf (dividend_coverage_ratio d) }
    alpha := alphaExt.map (fun a => FVal.fin (round4 a))
    notes := notes d }

/-- The degraded-error document of the `except` branch of `compute_all`. -/
def error_doc (ticker : String) (e : String) : Output :=
  { ticker := ticker
    error := some e
    currency := "Unknown"
    years := []
    validation := []
    ratios := none
    dupont := none
    piotroski := { score := none, fscore_display := "N/A", signals := [] }
    beneish := { m := none, reason := some ("computation_error: " ++ e), components := [] }
    altman := { z := none, z_prime := none, reason := some ("computation_error: " ++ e), components := [] }
    price_based := none
    dividends := none
    alpha := none
    notes := ["Error: " ++ e] }

/-- `compute.compute_all`, as a function of the externally fetched raw data
and the externally computed alpha.  The only internal fault source of the
model is the period selector; in the source every fault (including fetch
failures) is caught by the same `except` branch and produces `error_doc`. -/
def compute_all (ticker : String) (raw : RawData) (alphaExt : Option ℚ) : Output :=
  match select_two_years raw with
  | Except.ok d => success_doc ticker d alphaExt
  | Except.error e => error_doc ticker e

/-! ## Concrete inputs used by witnesses and counterexamples -/

/-- An info snapshot with every key absent. -/
def infoEmpty : Info := ⟨none, none, none, none, none, none, none⟩

/-- A statement table with two fiscal periods and no rows. -/
def dfBare : DF := ⟨[2, 1], []⟩

/-- A raw statement set with two common fiscal periods and no line items:
every metric input is missing, but the pipeline stays on the success path. -/
def rawBare : RawData := ⟨dfBare, dfBare, dfBare, infoEmpty⟩

/-- The selection produced from `rawBare`. -/
def dBare : SelData := ⟨dfBare, dfBare, dfBare, infoEmpty, [2, 1], "USD"⟩

/-- A raw statement set with only one common fiscal period. -/
def rawOneYear : RawData := ⟨⟨[1], []⟩, ⟨[1], []⟩, ⟨[1], []⟩, infoEmpty⟩

/-- An info snapshot carrying only a shares-outstanding figure. -/
def infoShares : Info := ⟨some (FVal.fin 100), none, none, none, none, none, none⟩

/-- `rawBare` with shares outstanding present. -/
def rawShares : RawData := ⟨dfBare, dfBare, dfBare, infoShares⟩

/-- The selection produced from `rawShares`. -/
def dShares : SelData := ⟨dfBare, dfBare, dfBare, infoShares, [2, 1], "USD"⟩

/-- A fully populated income statement over periods 2 (current) and 1 (prior). -/
def incomeFull : DF :=
  ⟨[2, 1],
   [("TotalRevenue", [FVal.fin 1000, FVal.fin 800]),
    ("GrossProfit", [FVal.fin 400, FVal.fin 300]),
    ("OperatingIncome", [FVal.fin 250, FVal.fin 200]),
    ("NetIncome", [FVal.fin 150, FVal.fin 120]),
    ("PretaxIncome", [FVal.fin 200, FVal.fin 160]),
    ("SellingGeneralAdministrative", [FVal.fin 120, FVal.fin 100])]⟩

/-- A fully populated balance sheet over periods 2 and 1. -/
def balanceFull : DF :=
  ⟨[2, 1],
   [("TotalAssets", [FVal.fin 1000, FVal.fin 900]),
    ("TotalLiabilities", [FVal.fin 600, FVal.fin 550]),
    ("TotalStockholderEquity", [FVal.fin 400, FVal.fin 350]),
    ("TotalCurrentAssets", [FVal.fin 300, FVal.fin 280]),
    ("TotalCurrentLiabilities", [FVal.fin 150, FVal.fin 140]),
    ("Inventory", [FVal.fin 50, FVal.fin 40]),
    ("NetPPE", [FVal.fin 200, FVal.fin 180]),
    ("RetainedEarnings", [FVal.fin 100, FVal.fin 80]),
    ("NetReceivables", [FVal.fin 100, FVal.fin 90])]⟩

/-- A fully populated cash-flow statement over periods 2 and 1. -/
def cashflowFull : DF :=
  ⟨[2, 1],
   [("TotalCashFromOperatingActivities", [FVal.fin 180, FVal.fin 160]),
    ("Depreciation", [FVal.fin 50, FVal.fin 40]),
    ("CashDividendsPaid", [FVal.fin (-30), FVal.fin (-20)])]⟩

/-- A raw statement set where every Beneish and Altman input is present. -/
def rawFull : RawData := ⟨incomeFull, balanceFull, cashflowFull, infoEmpty⟩

/-- The selection produced from `rawFull`. -/
def dFull : SelData := ⟨incomeFull, balanceFull, cashflowFull, infoEmpty, [2, 1], "USD"⟩

/-- The balance sheet of the specification scenario `TotalAssets=1000,
TotalLiabilities=400, TotalStockholderEquity=600` over one period. -/
def dfSpecBal : DF :=
  ⟨[1],
   [("TotalAssets", [FVal.fin 1000]),
    ("TotalLiabilities", [FVal.fin 400]),
    ("TotalStockholderEquity", [FVal.fin 600])]⟩

/-- A one-row table whose row has a missing current-period cell and a
populated prior-period cell. -/
def dfGap : DF := ⟨[3, 2], [("TotalAssets", [FVal.nan, FVal.fin 5])]⟩

/-! ## Helper lemmas -/

/-- A float value that is NaN or finite (never an infinity); every `safe_div`
result is of this shape. -/
def tame (v : FVal) : Prop := v = FVal.nan ∨ ∃ q, v = FVal.fin q

lemma isna_iff {v : FVal} : v.isna = true ↔ v = FVal.nan := by
  cases v <;> simp [FVal.isna]

lemma tame_of_not_isna {v : FVal} (ht : tame v) (h : v.isna = false) : ∃ q, v = FVal.fin q := by
  rcases ht with h1 | h1
  · rw [h1] at h; simp [FVal.isna] at h
  · exact h1

lemma tame_of_not_isinf {v : FVal} (h : v.isinf = false) : tame v := by
  cases v <;> simp [FVal.isinf] at h ⊢ <;> simp [tame]

lemma safe_div_tame (a b : FVal) : tame (safe_div a b) := by
  unfold safe_div
  split_ifs with h1 h2
  · exact Or.inl rfl
  · exact Or.inl rfl
  · dsimp only
    split_ifs with h3
    · exact Or.inl rfl
    · exact tame_of_not_isinf (by simpa using h3)

lemma avg_tame (a b : FVal) : tame (avg a b) := by
  unfold avg tame
  cases a <;> cases b <;> simp [FVal.isna, FVal.isFin]

lemma fmul_tame {a b : FVal} (ha : tame a) (hb : tame b) : tame (FVal.fmul a b) := by
  rcases ha with h1 | ⟨p, h1⟩ <;> rcases hb with h2 | ⟨q, h2⟩ <;>
    subst h1 <;> subst h2 <;> simp [tame, FVal.fmul]

lemma flt_nan_left (b : FVal) : FVal.flt FVal.nan b = false := by cases b <;> rfl

lemma flt_nan_right (a : FVal) : FVal.flt a FVal.nan = false := by cases a <;> rfl

lemma fle_nan_left (b : FVal) : FVal.fle FVal.nan b = false := by cases b <;> rfl

/-- An output leaf is null or finite. -/
def goodLeaf (o : Option FVal) : Prop := ∀ v, o = some v → ∃ q, v = FVal.fin q

lemma leafOf_good {x : FVal} (hx : tame x) : goodLeaf (leafOf x) := by
  intro v hv
  rcases hx with h | ⟨q, h⟩ <;> subst h <;>
    simp [leafOf, FVal.isna, fround4] at hv
  exact ⟨round4 q, hv.symm⟩

lemma goodLeaf_none : goodLeaf none := by intro v hv; cases hv

lemma hselBare : select_two_years rawBare = Except.ok dBare := by rfl

lemma hselShares : select_two_years rawShares = Except.ok dShares := by rfl

lemma hselFull : select_two_years rawFull = Except.ok dFull := by rfl

/-- Claim C1 fails on the code: `safe_div` with a finite numerator and an
infinite denominator returns the IEEE quotient `0.0`, not the NaN "unknown"
marker that the claim requires for a non-finite operand. -/
theorem C1_counterexample :
    safe_div (FVal.fin 1) (FVal.inf true) = FVal.fin 0 ∧ FVal.fin 0 ≠ FVal.nan := by
  decide

/-- C1 (amended): `safe_div a b` returns the quotient when both operands are
finite and `|b| ≥ 1e-12`; it returns NaN when either operand is NaN, when `b`
is finite with `|b| < 1e-12`, when the numerator is infinite and `b` is a
usable denominator (the division result is infinite, or NaN for ∞/∞); but a
finite numerator over an infinite denominator yields `0`, not NaN. -/
theorem C1_safe_div_characterization :
    (∀ b : FVal, safe_div FVal.nan b = FVal.nan) ∧
    (∀ a : FVal, safe_div a FVal.nan = FVal.nan) ∧
    (∀ a b : ℚ, |b| < divEps → safe_div (FVal.fin a) (FVal.fin b) = FVal.nan) ∧
    (∀ a b : ℚ, divEps ≤ |b| → safe_div (FVal.fin a) (FVal.fin b) = FVal.fin (a / b)) ∧
    (∀ (s : Bool) (b : ℚ), divEps ≤ |b| → safe_div (FVal.inf s) (FVal.fin b) = FVal.nan) ∧
    (∀ s t : Bool, safe_div (FVal.inf s) (FVal.inf t) = FVal.nan) ∧
    (∀ (a : ℚ) (s : Bool), safe_div (FVal.fin a) (FVal.inf s) = FVal.fin 0) := by
  refine ⟨?_, ?_, ?_, ?_, ?_, ?_, ?_⟩
  · intro b; cases b <;> rfl
  · intro a; cases a <;> rfl
  · intro a b h
    simp [safe_div, FVal.isna, FVal.fabs, FVal.flt, h]
  · intro a b h
    have hb : b ≠ 0 := by
      intro h0
      rw [h0] at h
      simp [divEps] at h
      linarith
    have hnl : ¬ (|b| < divEps) := not_lt.mpr h
    simp [safe_div, FVal.isna, FVal.fabs, FVal.flt, hnl, FVal.fdiv, hb, FVal.isinf]
  · intro s b h
    have hb : b ≠ 0 := by
      intro h0
      rw [h0] at h
      simp [divEps] at h
      linarith
    have hnl : ¬ (|b| < divEps) := not_lt.mpr h
    simp [safe_div, FVal.isna, FVal.fabs, FVal.flt, hnl, FVal.fdiv, hb, FVal.isinf]
  · intro s t; cases s <;> cases t <;> rfl
  · intro a s; cases s <;> rfl

/-- Witness for C1: the characterization applied at concrete operands. -/
theorem C1_witness :
    safe_div (FVal.fin 6) (FVal.fin 2) = FVal.fin 3 ∧
    safe_div (FVal.inf true) (FVal.fin 2) = FVal.nan := by
  constructor
  · have h := C1_safe_div_characterization.2.2.2.1 6 2 (by norm_num [divEps])
    have h2 : (6 : ℚ) / 2 = 3 := by norm_num
    rw [h2] at h
    exact h
  · exact C1_safe_div_characterization.2.2.2.2.1 true 2 (by norm_num [divEps])

/-- C2 (confirmed): with fewer than two fiscal periods common to the three
statements, `compute_all` returns the degraded-error document: the ticker is
preserved, the error string reports the insufficient period count, the ratios
section is the empty dict, and the notes list is the single note embedding
the error message. -/
theorem C2_insufficient_periods (ticker : String) (raw : RawData) (alphaExt : Option ℚ)
    (h : (commonYears raw).length < 2) :
    (compute_all ticker raw alphaExt).ticker = ticker ∧
    (compute_all ticker raw alphaExt).error =
      some ("Insufficient common years: " ++ toString (commonYears raw).length ++ " found") ∧
    (compute_all ticker raw alphaExt).ratios = none ∧
    (compute_all ticker raw alphaExt).notes =
      ["Error: " ++ ("Insufficient common years: " ++ toString (commonYears raw).length ++ " found")] := by
  have hsel : select_two_years raw =
      Except.error ("Insufficient common years: " ++ toString (commonYears raw).length ++ " found") := by
    unfold select_two_years
    rw [if_pos h]
  refine ⟨?_, ?_, ?_, ?_⟩ <;> simp [compute_all, hsel, error_doc]

/-- Witness for C2: the statement set with a single common fiscal period. -/
theorem C2_witness :
    (compute_all "TEST" rawOneYear none).error = some "Insufficient common years: 1 found" ∧
    (compute_all "TEST" rawOneYear none).ratios = none ∧
    (compute_all "TEST" rawOneYear none).notes = ["Error: Insufficient common years: 1 found"] := by
  have h := C2_insufficient_periods "TEST" rawOneYear none (by decide)
  have hmsg : ("Insufficient common years: " ++ toString (commonYears rawOneYear).length ++ " found") =
      "Insufficient common years: 1 found" := by decide
  refine ⟨?_, h.2.2.1, ?_⟩
  · rw [h.2.1, hmsg]
  · rw [h.2.2.2, hmsg]
    decide


lemma safe_div_fin {a b : ℚ} (hb : divEps ≤ |b|) :
    safe_div (FVal.fin a) (FVal.fin b) = FVal.fin (a / b) := by
  have hb0 : b ≠ 0 := by
    intro h0
    rw [h0] at hb
    simp [divEps] at hb
    linarith
  have hnl : ¬ (|b| < divEps) := not_lt.mpr hb
  simp [safe_div, FVal.isna, FVal.fabs, FVal.flt, hnl, FVal.fdiv, hb0, FVal.isinf]

lemma safe_div_small {a b : ℚ} (hb : |b| < divEps) :
    safe_div (FVal.fin a) (FVal.fin b) = FVal.nan := by
  simp [safe_div, FVal.isna, FVal.fabs, FVal.flt, hb]

lemma safe_div_inf_fin {b : ℚ} (s : Bool) (hb : divEps ≤ |b|) :
    safe_div (FVal.inf s) (FVal.fin b) = FVal.nan := by
  have hb0 : b ≠ 0 := by
    intro h0
    rw [h0] at hb
    simp [divEps] at hb
    linarith
  have hnl : ¬ (|b| < divEps) := not_lt.mpr hb
  simp [safe_div, FVal.isna, FVal.fabs, FVal.flt, hnl, FVal.fdiv, hb0, FVal.isinf]

lemma filtmap_cons (p : String × FVal) (l : List (String × FVal)) :
    ((p :: l).filter (fun x => x.2.isna)).map (fun x => x.1) =
      (if p.2.isna then [p.1] else []) ++
        (l.filter (fun x => x.2.isna)).map (fun x => x.1) := by
  by_cases h : p.2.isna <;> simp [List.filter_cons, h]

lemma missing_components_eq (d : SelData) :
    missing_components d =
      (if (DSRI d).isna then ["DSRI"] else []) ++ (if (GMI d).isna then ["GMI"] else []) ++
      (if (AQI d).isna then ["AQI"] else []) ++ (if (SGI d).isna then ["SGI"] else []) ++
      (if (DEPI d).isna then ["DEPI"] else []) ++ (if (SGAI d).isna then ["SGAI"] else []) ++
      (if (LVGI d).isna then ["LVGI"] else []) ++ (if (TATA d).isna then ["TATA"] else []) := by
  unfold missing_components beneish_components
  rw [filtmap_cons, filtmap_cons, filtmap_cons, filtmap_cons, filtmap_cons, filtmap_cons,
    filtmap_cons, filtmap_cons]
  simp [List.append_assoc]

lemma missing_nil_fin {d : SelData} (h : missing_components d = []) :
    ∃ q1 q2 q3 q4 q5 q6 q7 q8 : ℚ,
      DSRI d = FVal.fin q1 ∧ GMI d = FVal.fin q2 ∧ AQI d = FVal.fin q3 ∧
      SGI d = FVal.fin q4 ∧ DEPI d = FVal.fin q5 ∧ SGAI d = FVal.fin q6 ∧
      LVGI d = FVal.fin q7 ∧ TATA d = FVal.fin q8 := by
  rw [missing_components_eq] at h
  simp only [List.append_eq_nil] at h
  obtain ⟨⟨⟨⟨⟨⟨⟨hD, hG⟩, hA⟩, hS⟩, hDe⟩, hSg⟩, hL⟩, hT⟩ := h
  have fD : (DSRI d).isna = false := by revert hD; split <;> simp_all
  have fG : (GMI d).isna = false := by revert hG; split <;> simp_all
  have fA : (AQI d).isna = false := by revert hA; split <;> simp_all
  have fS : (SGI d).isna = false := by revert hS; split <;> simp_all
  have fDe : (DEPI d).isna = false := by revert hDe; split <;> simp_all
  have fSg : (SGAI d).isna = false := by revert hSg; split <;> simp_all
  have fL : (LVGI d).isna = false := by revert hL; split <;> simp_all
  have fT : (TATA d).isna = false := by revert hT; split <;> simp_all
  obtain ⟨q1, e1⟩ := tame_of_not_isna (safe_div_tame _ _) fD
  obtain ⟨q2, e2⟩ := tame_of_not_isna (safe_div_tame _ _) fG
  obtain ⟨q3, e3⟩ := tame_of_not_isna (safe_div_tame _ _) fA
  obtain ⟨q4, e4⟩ := tame_of_not_isna (safe_div_tame _ _) fS
  obtain ⟨q5, e5⟩ := tame_of_not_isna (safe_div_tame _ _) fDe
  obtain ⟨q6, e6⟩ := tame_of_not_isna (safe_div_tame _ _) fSg
  obtain ⟨q7, e7⟩ := tame_of_not_isna (safe_div_tame _ _) fL
  obtain ⟨q8, e8⟩ := tame_of_not_isna (safe_div_tame _ _) fT
  exact ⟨q1, q2, q3, q4, q5, q6, q7, q8, e1, e2, e3, e4, e5, e6, e7, e8⟩

/-- C3 (confirmed): the Beneish composite is all-or-nothing.  The missing
list is exactly the names of the NaN components in component order; if it is
non-empty the composite is null and the reason string lists those names; if
it is empty, all eight components are numeric and the composite is the
Beneish regression formula (rounded to 4 decimals for output). -/
theorem C3_beneish_all_or_nothing (ticker : String) (raw : RawData) (d : SelData)
    (alphaExt : Option ℚ) (hsel : select_two_years raw = Except.ok d) :
    missing_components d =
      (if (DSRI d).isna then ["DSRI"] else []) ++ (if (GMI d).isna then ["GMI"] else []) ++
      (if (AQI d).isna then ["AQI"] else []) ++ (if (SGI d).isna then ["SGI"] else []) ++
      (if (DEPI d).isna then ["DEPI"] else []) ++ (if (SGAI d).isna then ["SGAI"] else []) ++
      (if (LVGI d).isna then ["LVGI"] else []) ++ (if (TATA d).isna then ["TATA"] else []) ∧
    (missing_components d ≠ [] →
      (compute_all ticker raw alphaExt).beneish.m = none ∧
      (compute_all ticker raw alphaExt).beneish.reason =
        some ("insufficient_fields: " ++ String.intercalate ", " (missing_components d))) ∧
    (missing_components d = [] →
      ∃ dsri gmi aqi sgi depi sgai lvgi tata : ℚ,
        DSRI d = FVal.fin dsri ∧ GMI d = FVal.fin gmi ∧ AQI d = FVal.fin aqi ∧
        SGI d = FVal.fin sgi ∧ DEPI d = FVal.fin depi ∧ SGAI d = FVal.fin sgai ∧
        LVGI d = FVal.fin lvgi ∧ TATA d = FVal.fin tata ∧
        (compute_all ticker raw alphaExt).beneish.m =
          some (FVal.fin (round4 (-4.84 + 0.92 * dsri + 0.528 * gmi + 0.404 * aqi +
            0.892 * sgi + 0.115 * depi - 0.172 * sgai + 4.679 * tata - 0.327 * lvgi))) ∧
        (compute_all ticker raw alphaExt).beneish.reason = none) := by
  have hc : compute_all ticker raw alphaExt = success_doc ticker d alphaExt := by
    simp [compute_all, hsel]
  refine ⟨missing_components_eq d, ?_, ?_⟩
  · intro h
    rw [hc]
    simp [success_doc, beneish_m_score, beneish_reason, h]
  · intro h
    obtain ⟨q1, q2, q3, q4, q5, q6, q7, q8, e1, e2, e3, e4, e5, e6, e7, e8⟩ := missing_nil_fin h
    refine ⟨q1, q2, q3, q4, q5, q6, q7, q8, e1, e2, e3, e4, e5, e6, e7, e8, ?_, ?_⟩
    · rw [hc]
      have hf : beneish_formula d =
          FVal.fin (-4.84 + 0.92 * q1 + 0.528 * q2 + 0.404 * q3 + 0.892 * q4 +
            0.115 * q5 - 0.172 * q6 + 4.679 * q8 - 0.327 * q7) := by
        simp only [beneish_formula, e1, e2, e3, e4, e5, e6, e7, e8,
          FVal.fadd, FVal.fmul, FVal.fsub, FVal.fneg]
        congr 1
        ring
      simp [success_doc, beneish_m_score, h, hf, fround4]
    · rw [hc]
      simp [success_doc, beneish_reason, h]

/-- Witness for C3: a fully populated statement set (no missing component)
and an empty one (all eight components missing). -/
theorem C3_witness :
    (compute_all "T" rawFull none).beneish.reason = none ∧
    (compute_all "T" rawBare none).beneish.m = none ∧
    (compute_all "T" rawBare none).beneish.reason =
      some "insufficient_fields: DSRI, GMI, AQI, SGI, DEPI, SGAI, LVGI, TATA" := by
  have hNR : NetReceivables_t dFull = FVal.fin 100 := by decide
  have hNR1 : NetReceivables_t1 dFull = FVal.fin 90 := by decide
  have hTR : TotalRevenue_t dFull = FVal.fin 1000 := by decide
  have hTR1 : TotalRevenue_t1 dFull = FVal.fin 800 := by decide
  have hGP : GrossProfit_t dFull = FVal.fin 400 := by decide
  have hGP1 : GrossProfit_t1 dFull = FVal.fin 300 := by decide
  have hTCA : TotalCurrentAssets_t dFull = FVal.fin 300 := by decide
  have hTCA1 : safe_get_field dFull.balance ["TotalCurrentAssets"] (some (y_t1 dFull)) =
      FVal.fin 280 := by decide
  have hPPE : NetPPE_t dFull = FVal.fin 200 := by decide
  have hPPE1 : NetPPE_t1 dFull = FVal.fin 180 := by decide
  have hTA : TotalAssets_t dFull = FVal.fin 1000 := by decide
  have hTA1 : TotalAssets_t1 dFull = FVal.fin 900 := by decide
  have hDep : Depreciation_t dFull = FVal.fin 50 := by decide
  have hDep1 : Depreciation_t1 dFull = FVal.fin 40 := by decide
  have hSGA : SellingGeneralAdministrative_t dFull = FVal.fin 120 := by decide
  have hSGA1 : SellingGeneralAdministrative_t1 dFull = FVal.fin 100 := by decide
  have hTL : TotalLiabilities_t dFull = FVal.fin 600 := by decide
  have hTL1 : TotalLiabilities_t1 dFull = FVal.fin 550 := by decide
  have hOI : OperatingIncome_t dFull = FVal.fin 250 := by decide
  have hCFO : TotalCashFromOperatingActivities_t dFull = FVal.fin 180 := by decide
  have fD : (DSRI dFull).isna = false := by
    norm_num [DSRI, hNR, hNR1, hTR, hTR1, safe_div, FVal.isna, FVal.fabs, FVal.flt,
      FVal.fdiv, FVal.isinf, divEps, abs_of_pos]
  have fG : (GMI dFull).isna = false := by
    norm_num [GMI, hGP, hGP1, hTR, hTR1, safe_div, FVal.isna, FVal.fabs, FVal.flt,
      FVal.fdiv, FVal.isinf, divEps, abs_of_pos]
  have fA : (AQI dFull).isna = false := by
    norm_num [AQI, hTCA, hTCA1, hPPE, hPPE1, hTA, hTA1, safe_div, FVal.isna, FVal.fabs,
      FVal.flt, FVal.fdiv, FVal.isinf, FVal.fadd, FVal.fsub, FVal.fneg, divEps, abs_of_pos]
  have fS : (SGI dFull).isna = false := by
    norm_num [SGI, hTR, hTR1, safe_div, FVal.isna, FVal.fabs, FVal.flt,
      FVal.fdiv, FVal.isinf, divEps, abs_of_pos]
  have fDe : (DEPI dFull).isna = false := by
    norm_num [DEPI, hDep, hDep1, hPPE, hPPE1, safe_div, FVal.isna, FVal.fabs, FVal.flt,
      FVal.fdiv, FVal.isinf, FVal.fadd, divEps, abs_of_pos]
  have fSg : (SGAI dFull).isna = false := by
    norm_num [SGAI, hSGA, hSGA1, hTR, hTR1, safe_div, FVal.isna, FVal.fabs, FVal.flt,
      FVal.fdiv, FVal.isinf, divEps, abs_of_pos]
  have fL : (LVGI dFull).isna = false := by
    norm_num [LVGI, hTL, hTL1, hTA, hTA1, safe_div, FVal.isna, FVal.fabs, FVal.flt,
      FVal.fdiv, FVal.isinf, divEps, abs_of_pos]
  have fT : (TATA dFull).isna = false := by
    norm_num [TATA, hOI, hCFO, hTA, safe_div, FVal.isna, FVal.fabs, FVal.flt,
      FVal.fdiv, FVal.isinf, FVal.fsub, FVal.fneg, FVal.fadd, divEps, abs_of_pos]
  have hMissFull : missing_components dFull = [] := by
    rw [missing_components_eq]
    simp [fD, fG, fA, fS, fDe, fSg, fL, fT]
  have h1 := (C3_beneish_all_or_nothing "T" rawFull dFull none hselFull).2.2 hMissFull
  obtain ⟨_, _, _, _, _, _, _, _, _, _, _, _, _, _, _, _, _, hr⟩ := h1
  have h2 := (C3_beneish_all_or_nothing "T" rawBare dBare none hselBare).2.1 (by decide)
  refine ⟨hr, h2.1, ?_⟩
  rw [h2.2]
  decide

lemma tame_nan : tame FVal.nan := Or.inl rfl

lemma tame_ite {c : Prop} [Decidable c] {x y : FVal} (hx : tame x) (hy : tame y) :
    tame (if c then x else y) := by
  split_ifs <;> assumption

lemma tax_burden_tame (d : SelData) : tame (tax_burden d) := by
  unfold tax_burden
  exact tame_ite (safe_div_tame _ _) tame_nan

lemma interest_burden_tame (d : SelData) : tame (interest_burden d) := by
  unfold interest_burden
  exact tame_ite (safe_div_tame _ _) tame_nan

lemma roe_dupont_3_tame (d : SelData) : tame (roe_dupont_3 d) :=
  fmul_tame (fmul_tame (safe_div_tame _ _) (safe_div_tame _ _)) (safe_div_tame _ _)

lemma roe_dupont_5_tame (d : SelData) : tame (roe_dupont_5 d) :=
  fmul_tame (fmul_tame (fmul_tame (fmul_tame (tax_burden_tame d) (interest_burden_tame d))
    (safe_div_tame _ _)) (safe_div_tame _ _)) (safe_div_tame _ _)

lemma peg_tame (d : SelData) : tame (peg d) := by
  unfold peg
  exact tame_ite (safe_div_tame _ _) tame_nan

lemma dividend_payout_ratio_tame (d : SelData) : tame (dividend_payout_ratio d) := by
  unfold dividend_payout_ratio
  exact tame_ite (safe_div_tame _ _) tame_nan

lemma dividend_coverage_ratio_tame (d : SelData) : tame (dividend_coverage_ratio d) := by
  unfold dividend_coverage_ratio
  exact tame_ite (safe_div_tame _ _) tame_nan

lemma beneish_components_tame (d : SelData) :
    ∀ p ∈ beneish_components d, tame p.2 := by
  intro p hp
  simp only [beneish_components, List.mem_cons, List.not_mem_nil, or_false] at hp
  rcases hp with h | h | h | h | h | h | h | h <;> subst h <;> exact safe_div_tame _ _

lemma beneish_m_good (d : SelData) : goodLeaf ((beneish_m_score d).map fround4) := by
  by_cases h : missing_components d = []
  · obtain ⟨q1, q2, q3, q4, q5, q6, q7, q8, e1, e2, e3, e4, e5, e6, e7, e8⟩ := missing_nil_fin h
    have hf : ∃ q, beneish_formula d = FVal.fin q := by
      unfold beneish_formula
      rw [e1, e2, e3, e4, e5, e6, e7, e8]
      simp only [FVal.fadd, FVal.fmul, FVal.fsub, FVal.fneg]
      exact ⟨_, rfl⟩
    obtain ⟨q, hq⟩ := hf
    have hm : beneish_m_score d = some (beneish_formula d) := by
      simp [beneish_m_score, h]
    intro v hv
    rw [hm, hq] at hv
    simp only [Option.map_some', fround4, Option.some.injEq] at hv
    exact ⟨round4 q, hv.symm⟩
  · have hm : beneish_m_score d = none := by
      simp [beneish_m_score, h]
    intro v hv
    rw [hm] at hv
    cases hv

lemma altman_components_fin {d : SelData}
    (h : (altman_components d).any (fun c => c.isna) = false) :
    ∃ qa qb qc qd qe : ℚ,
      altman_a d = FVal.fin qa ∧ altman_b d = FVal.fin qb ∧ altman_c d = FVal.fin qc ∧
      altman_d d = FVal.fin qd ∧ altman_e d = FVal.fin qe := by
  simp only [altman_components, List.any_cons, List.any_nil, Bool.or_false,
    Bool.or_eq_false_iff] at h
  obtain ⟨ha, hb, hc, hd, he⟩ := h
  obtain ⟨qa, ea⟩ := tame_of_not_isna (safe_div_tame _ _) ha
  obtain ⟨qb, eb⟩ := tame_of_not_isna (safe_div_tame _ _) hb
  obtain ⟨qc, ec⟩ := tame_of_not_isna (safe_div_tame _ _) hc
  obtain ⟨qd, ed⟩ := tame_of_not_isna (safe_div_tame _ _) hd
  obtain ⟨qe, ee⟩ := tame_of_not_isna (safe_div_tame _ _) he
  exact ⟨qa, qb, qc, qd, qe, ea, eb, ec, ed, ee⟩

lemma altman_z_good (d : SelData) : goodLeaf ((altman_z_score d).map fround4) := by
  by_cases h : (altman_components d).any (fun c => c.isna) = false
  · obtain ⟨qa, qb, qc, qd, qe, ea, eb, ec, ed, ee⟩ := altman_components_fin h
    have hf : ∃ q, altman_formula d = FVal.fin q := by
      unfold altman_formula
      rw [ea, eb, ec, ed, ee]
      simp only [FVal.fadd, FVal.fmul]
      exact ⟨_, rfl⟩
    obtain ⟨q, hq⟩ := hf
    have hz : altman_z_score d = some (altman_formula d) := by
      simp [altman_z_score, h]
    intro v hv
    rw [hz, hq] at hv
    simp only [Option.map_some', fround4, Option.some.injEq] at hv
    exact ⟨round4 q, hv.symm⟩
  · have hz : altman_z_score d = none := by
      simp only [Bool.not_eq_false] at h
      simp [altman_z_score, h]
    intro v hv
    rw [hz] at hv
    cases hv

lemma goodLeaf_map_round (o : Option ℚ) :
    goodLeaf (o.map (fun a => FVal.fin (round4 a))) := by
  intro v hv
  cases o with
  | none => cases hv
  | some a =>
    simp only [Option.map_some', Option.some.injEq] at hv
    exact ⟨round4 a, hv.symm⟩

/-- Claim C4 fails on the code: on a success-path input whose balance sheet
lacks `TotalAssets`, the per-period validation section of the document
returned by `compute_all` carries the literal infinite delta — the validation
entries are placed in the output without any non-finite sanitization. -/
theorem C4_counterexample :
    (compute_all "T" rawBare none).error = none ∧
    ((compute_all "T" rawBare none).validation.map (fun p => p.2.delta)) =
      [FVal.inf true, FVal.inf true] ∧
    (FVal.inf true).isinf = true := by
  decide

/-- C4 (amended): on the success path, every leaf of every section of the
output document except the per-period validation section is either null or a
finite value — NaN and infinities are normalized away at production time
everywhere but in the validation entries (whose delta is infinite whenever
assets are missing or nonpositive). -/
theorem C4_finite_outside_validation (ticker : String) (raw : RawData) (d : SelData)
    (alphaExt : Option ℚ) (hsel : select_two_years raw = Except.ok d) :
    (∀ rt, (compute_all ticker raw alphaExt).ratios = some rt →
      goodLeaf rt.current ∧ goodLeaf rt.quick ∧ goodLeaf rt.debt_to_equity ∧
      goodLeaf rt.roe ∧ goodLeaf rt.roa ∧ goodLeaf rt.roe_adjusted) ∧
    (∀ dp, (compute_all ticker raw alphaExt).dupont = some dp →
      goodLeaf dp.roe_3step.npm ∧ goodLeaf dp.roe_3step.asset_turnover ∧
      goodLeaf dp.roe_3step.equity_multiplier ∧ goodLeaf dp.roe_3step.roe ∧
      goodLeaf dp.roe_5step.tax_burden ∧ goodLeaf dp.roe_5step.interest_burden ∧
      goodLeaf dp.roe_5step.operating_margin ∧ goodLeaf dp.roe_5step.asset_turnover ∧
      goodLeaf dp.roe_5step.equity_multiplier ∧ goodLeaf dp.roe_5step.roe) ∧
    goodLeaf (compute_all ticker raw alphaExt).beneish.m ∧
    (∀ p ∈ (compute_all ticker raw alphaExt).beneish.components, goodLeaf p.2) ∧
    goodLeaf (compute_all ticker raw alphaExt).altman.z ∧
    goodLeaf (compute_all ticker raw alphaExt).altman.z_prime ∧
    (∀ p ∈ (compute_all ticker raw alphaExt).altman.components, goodLeaf p.2) ∧
    (∀ pbs, (compute_all ticker raw alphaExt).price_based = some pbs →
      goodLeaf pbs.pe ∧ goodLeaf pbs.pb ∧ goodLeaf pbs.ps ∧ goodLeaf pbs.peg) ∧
    (∀ dv, (compute_all ticker raw alphaExt).dividends = some dv →
      goodLeaf dv.dividend_yield ∧ goodLeaf dv.dividend_payout_ratio ∧
      goodLeaf dv.dividend_coverage_ratio) ∧
    goodLeaf (compute_all ticker raw alphaExt).alpha := by
  have hc : compute_all ticker raw alphaExt = success_doc ticker d alphaExt := by
    simp [compute_all, hsel]
  rw [hc]
  refine ⟨?_, ?_, ?_, ?_, ?_, ?_, ?_, ?_, ?_, ?_⟩
  · intro rt hrt
    simp only [success_doc, Option.some.injEq] at hrt
    subst hrt
    exact ⟨leafOf_good (safe_div_tame _ _), leafOf_good (safe_div_tame _ _),
      leafOf_good (safe_div_tame _ _), leafOf_good (safe_div_tame _ _),
      leafOf_good (safe_div_tame _ _), leafOf_good (roe_dupont_3_tame d)⟩
  · intro dp hdp
    simp only [success_doc, Option.some.injEq] at hdp
    subst hdp
    exact ⟨leafOf_good (safe_div_tame _ _), leafOf_good (safe_div_tame _ _),
      leafOf_good (safe_div_tame _ _), leafOf_good (roe_dupont_3_tame d),
      leafOf_good (tax_burden_tame d), leafOf_good (interest_burden_tame d),
      leafOf_good (safe_div_tame _ _), leafOf_good (safe_div_tame _ _),
      leafOf_good (safe_div_tame _ _), leafOf_good (roe_dupont_5_tame d)⟩
  · exact beneish_m_good d
  · intro p hp
    simp only [success_doc, List.mem_map] at hp
    obtain ⟨q, hq, rfl⟩ := hp
    exact leafOf_good (beneish_components_tame d q hq)
  · exact altman_z_good d
  · exact goodLeaf_none
  · intro p hp
    simp only [success_doc, List.mem_cons, List.not_mem_nil, or_false] at hp
    rcases hp with h | h | h | h | h <;> subst h <;> exact leafOf_good (safe_div_tame _ _)
  · intro pbs hpbs
    simp only [success_doc, Option.some.injEq] at hpbs
    subst hpbs
    exact ⟨leafOf_good (safe_div_tame _ _), leafOf_good (safe_div_tame _ _),
      leafOf_good (safe_div_tame _ _), leafOf_good (peg_tame d)⟩
  · intro dv hdv
    simp only [success_doc, Option.some.injEq] at hdv
    subst hdv
    exact ⟨leafOf_good (safe_div_tame _ _), leafOf_good (dividend_payout_ratio_tame d),
      leafOf_good (dividend_coverage_ratio_tame d)⟩
  · exact goodLeaf_map_round alphaExt

/-- Witness for C4: the amended theorem applied on a concrete success-path
input. -/
theorem C4_witness :
    goodLeaf (compute_all "T" rawBare none).beneish.m ∧
    goodLeaf (compute_all "T" rawBare none).altman.z ∧
    goodLeaf (compute_all "T" rawBare none).alpha := by
  have h := C4_finite_outside_validation "T" rawBare dBare none hselBare
  exact ⟨h.2.2.1, h.2.2.2.2.1, h.2.2.2.2.2.2.2.2.2⟩

/-- C5 (confirmed): per balance-sheet period, the validator fails with
infinite delta when assets are unknown (NaN) or nonpositive; otherwise it
reports `delta = |Assets − (Liabilities + Equity)| / Assets` against the
default 1% tolerance; in particular an exactly balanced sheet with positive
assets yields `ok = true, delta = 0`. -/
theorem C5_accounting_equation (df : DF) (col : Nat) (hcol : col ∈ df.cols) :
    ((safe_get_field df ["TotalAssets"] (some col)).isna = true ∨
      FVal.fle (safe_get_field df ["TotalAssets"] (some col)) (FVal.fin 0) = true →
      (toString col, (⟨false, FVal.inf true, none, none, none, none,
        some "Total Assets is zero or missing"⟩ : PeriodCheck)) ∈
        check_accounting_equation df (1/100)) ∧
    (∀ A L E : ℚ, safe_get_field df ["TotalAssets"] (some col) = FVal.fin A →
      safe_get_field df ["TotalLiabilities"] (some col) = FVal.fin L →
      safe_get_field df ["TotalStockholderEquity"] (some col) = FVal.fin E →
      0 < A →
      (toString col, (⟨decide (|A - (L + E)| / A ≤ 1/100), FVal.fin (|A - (L + E)| / A),
        some (FVal.fin A), some (FVal.fin L), some (FVal.fin E), some (FVal.fin (L + E)),
        none⟩ : PeriodCheck)) ∈ check_accounting_equation df (1/100)) ∧
    (∀ A L E : ℚ, safe_get_field df ["TotalAssets"] (some col) = FVal.fin A →
      safe_get_field df ["TotalLiabilities"] (some col) = FVal.fin L →
      safe_get_field df ["TotalStockholderEquity"] (some col) = FVal.fin E →
      A = L + E → 0 < A →
      (toString col, (⟨true, FVal.fin 0, some (FVal.fin A), some (FVal.fin L),
        some (FVal.fin E), some (FVal.fin (L + E)), none⟩ : PeriodCheck)) ∈
        check_accounting_equation df (1/100)) := by
  have key : ∀ A L E : ℚ, safe_get_field df ["TotalAssets"] (some col) = FVal.fin A →
      safe_get_field df ["TotalLiabilities"] (some col) = FVal.fin L →
      safe_get_field df ["TotalStockholderEquity"] (some col) = FVal.fin E →
      0 < A →
      (toString col, (⟨decide (|A - (L + E)| / A ≤ 1/100), FVal.fin (|A - (L + E)| / A),
        some (FVal.fin A), some (FVal.fin L), some (FVal.fin E), some (FVal.fin (L + E)),
        none⟩ : PeriodCheck)) ∈ check_accounting_equation df (1/100) := by
    intro A L E hA hL hE hApos
    unfold check_accounting_equation
    refine List.mem_map.mpr ⟨col, hcol, ?_⟩
    simp only [hA, hL, hE, FVal.flt, FVal.fadd, FVal.fsub, FVal.fneg, FVal.fabs, FVal.fdiv,
      FVal.fle, hApos, hApos.ne', ← sub_eq_add_neg]
    simp
  refine ⟨?_, key, ?_⟩
  · intro h
    have hta : FVal.flt (FVal.fin 0) (safe_get_field df ["TotalAssets"] (some col)) = false := by
      rcases h with h | h
      · rw [isna_iff.mp h]; rfl
      · cases hv : safe_get_field df ["TotalAssets"] (some col) with
        | nan => rfl
        | inf s =>
          rw [hv] at h
          simp only [FVal.fle] at h
          have hs : s = false := by simpa using h
          rw [hs]
          rfl
        | fin q =>
          rw [hv] at h
          simp only [FVal.fle, decide_eq_true_eq] at h
          simp [FVal.flt, not_lt.mpr h]
    unfold check_accounting_equation
    refine List.mem_map.mpr ⟨col, hcol, ?_⟩
    simp only [hta, Bool.false_eq_true, if_false]
  · intro A L E hA hL hE hEq hApos
    have h2 := key A L E hA hL hE hApos
    have e1 : |A - (L + E)| / A = 0 := by
      rw [hEq, sub_self, abs_zero, zero_div]
    rw [e1] at h2
    have e2 : decide ((0 : ℚ) ≤ 1/100) = true := by
      simp only [decide_eq_true_eq]
      norm_num
    rw [e2] at h2
    exact h2

/-- Witness for C5: the specification scenario balance sheet (1000 = 400 +
600) and a balance sheet with no assets row. -/
theorem C5_witness :
    ("1", (⟨true, FVal.fin 0, some (FVal.fin 1000), some (FVal.fin 400), some (FVal.fin 600),
      some (FVal.fin (400 + 600)), none⟩ : PeriodCheck)) ∈
        check_accounting_equation dfSpecBal (1/100) ∧
    ("2", (⟨false, FVal.inf true, none, none, none, none,
      some "Total Assets is zero or missing"⟩ : PeriodCheck)) ∈
        check_accounting_equation dfBare (1/100) := by
  constructor
  · exact (C5_accounting_equation dfSpecBal 1 (by decide)).2.2 1000 400 600
      (by decide) (by decide) (by decide) (by norm_num) (by norm_num)
  · exact (C5_accounting_equation dfBare 2 (by decide)).1 (Or.inl (by decide))

lemma F7_eq (d : SelData) : F7 d = if (shares d).isna then 0 else 1 := by
  unfold F7
  cases h : shares d with
  | nan => rfl
  | inf s => cases s <;> rfl
  | fin q => simp [FVal.fle, FVal.isna]

/-- Claim C6 fails on the code: on a success-path input whose info snapshot
lacks shares outstanding, `shares` is NaN, the comparison `shares <= shares`
is false, and the F7 signal evaluates to 0, not 1. -/
theorem C6_counterexample :
    (compute_all "T" rawBare none).error = none ∧
    ("F7", 0) ∈ (compute_all "T" rawBare none).piotroski.signals ∧
    ("F7", 1) ∉ (compute_all "T" rawBare none).piotroski.signals := by
  decide

/-- C6 (amended): the Piotroski F7 signal evaluates to 1 exactly when shares
outstanding is present as a non-NaN value (the self-comparison then holds);
when shares outstanding is unknown (NaN) the signal evaluates to 0. -/
theorem C6_f7_share_dilution (ticker : String) (raw : RawData) (d : SelData)
    (alphaExt : Option ℚ) (hsel : select_two_years raw = Except.ok d) :
    ("F7", if (shares d).isna then 0 else 1) ∈
      (compute_all ticker raw alphaExt).piotroski.signals ∧
    ((shares d).isna = false → F7 d = 1) ∧
    ((shares d).isna = true → F7 d = 0) := by
  have hc : compute_all ticker raw alphaExt = success_doc ticker d alphaExt := by
    simp [compute_all, hsel]
  refine ⟨?_, ?_, ?_⟩
  · rw [hc, ← F7_eq d]
    simp [success_doc, piotroski_signals]
  · intro h
    rw [F7_eq, h]
    rfl
  · intro h
    rw [F7_eq, h]
    rfl

/-- Witness for C6: shares present gives F7 = 1; shares missing gives
F7 = 0. -/
theorem C6_witness : F7 dShares = 1 ∧ F7 dBare = 0 := by
  constructor
  · exact (C6_f7_share_dilution "T" rawShares dShares none hselShares).2.1 (by decide)
  · exact (C6_f7_share_dilution "T" rawBare dBare none hselBare).2.2 (by decide)

lemma ite_zero_one {c : Prop} [Decidable c] :
    (if c then 1 else 0 : Nat) = 0 ∨ (if c then 1 else 0 : Nat) = 1 := by
  split_ifs <;> simp

lemma signal_le_one {c : Prop} [Decidable c] : (if c then 1 else 0 : Nat) ≤ 1 := by
  split_ifs <;> simp

/-- C7 (confirmed): on the success path the Piotroski score is the sum of the
nine binary signals, each signal is 0 or 1, the score is at most 9, and the
display string is the score (a Python int, rendered with two zero decimals)
over `/9`. -/
theorem C7_piotroski_score (ticker : String) (raw : RawData) (d : SelData)
    (alphaExt : Option ℚ) (hsel : select_two_years raw = Except.ok d) :
    (compute_all ticker raw alphaExt).piotroski.score =
      some ((((compute_all ticker raw alphaExt).piotroski.signals).map (fun p => p.2)).sum) ∧
    (∀ p ∈ (compute_all ticker raw alphaExt).piotroski.signals, p.2 = 0 ∨ p.2 = 1) ∧
    (∀ n, (compute_all ticker raw alphaExt).piotroski.score = some n → n ≤ 9) ∧
    (∀ n, (compute_all ticker raw alphaExt).piotroski.score = some n →
      (compute_all ticker raw alphaExt).piotroski.fscore_display = toString n ++ ".00/9") := by
  have hc : compute_all ticker raw alphaExt = success_doc ticker d alphaExt := by
    simp [compute_all, hsel]
  rw [hc]
  have hb1 : F1 d ≤ 1 := signal_le_one
  have hb2 : F2 d ≤ 1 := signal_le_one
  have hb3 : F3 d ≤ 1 := signal_le_one
  have hb4 : F4 d ≤ 1 := signal_le_one
  have hb5 : F5 d ≤ 1 := signal_le_one
  have hb6 : F6 d ≤ 1 := signal_le_one
  have hb7 : F7 d ≤ 1 := signal_le_one
  have hb8 : F8 d ≤ 1 := signal_le_one
  have hb9 : F9 d ≤ 1 := signal_le_one
  refine ⟨?_, ?_, ?_, ?_⟩
  · simp only [success_doc, piotroski_signals, piotroski_score, List.map_cons, List.map_nil,
      List.sum_cons, List.sum_nil, Option.some.injEq]
    omega
  · intro p hp
    simp only [success_doc, piotroski_signals, List.mem_cons, List.not_mem_nil, or_false] at hp
    rcases hp with h | h | h | h | h | h | h | h | h <;> subst h
    · exact ite_zero_one
    · exact ite_zero_one
    · exact ite_zero_one
    · exact ite_zero_one
    · exact ite_zero_one
    · exact ite_zero_one
    · exact ite_zero_one
    · exact ite_zero_one
    · exact ite_zero_one
  · intro n hn
    simp only [success_doc, Option.some.injEq] at hn
    subst hn
    unfold piotroski_score
    omega
  · intro n hn
    simp only [success_doc, Option.some.injEq] at hn
    subst hn
    rfl

/-- Witness for C7: on the all-missing input every signal is 0, the score is
their sum 0, and the display string is `0.00/9`. -/
theorem C7_witness :
    (compute_all "T" rawBare none).piotroski.score =
      some ((((compute_all "T" rawBare none).piotroski.signals).map (fun p => p.2)).sum) ∧
    (compute_all "T" rawBare none).piotroski.fscore_display = "0.00/9" := by
  have h := C7_piotroski_score "T" rawBare dBare none hselBare
  refine ⟨h.1, ?_⟩
  have hs : (compute_all "T" rawBare none).piotroski.score = some 0 := by decide
  rw [h.2.2.2 0 hs]
  decide

/-- C8 (confirmed): the Altman Z composite follows the same all-or-nothing
rule as Beneish: the missing trigger is exactly "some component is NaN"; when
it fires, `z` is null and the (fixed) reason string naming the five component
inputs is reported; when all five components are numeric, `z` is the weighted
sum `1.2A + 1.4B + 3.3C + 0.6D + 1.0E` (rounded to 4 decimals for output). -/
theorem C8_altman_all_or_nothing (ticker : String) (raw : RawData) (d : SelData)
    (alphaExt : Option ℚ) (hsel : select_two_years raw = Except.ok d) :
    (((altman_components d).any (fun c => c.isna) = true) ↔
      ((altman_a d).isna = true ∨ (altman_b d).isna = true ∨ (altman_c d).isna = true ∨
       (altman_d d).isna = true ∨ (altman_e d).isna = true)) ∧
    ((altman_components d).any (fun c => c.isna) = true →
      (compute_all ticker raw alphaExt).altman.z = none ∧
      (compute_all ticker raw alphaExt).altman.reason = some altman_reason_text) ∧
    ((altman_components d).any (fun c => c.isna) = false →
      ∃ a b c dd e : ℚ,
        altman_a d = FVal.fin a ∧ altman_b d = FVal.fin b ∧ altman_c d = FVal.fin c ∧
        altman_d d = FVal.fin dd ∧ altman_e d = FVal.fin e ∧
        (compute_all ticker raw alphaExt).altman.z =
          some (FVal.fin (round4 (1.2 * a + 1.4 * b + 3.3 * c + 0.6 * dd + 1.0 * e))) ∧
        (compute_all ticker raw alphaExt).altman.reason = none) := by
  have hc : compute_all ticker raw alphaExt = success_doc ticker d alphaExt := by
    simp [compute_all, hsel]
  refine ⟨by simp [altman_components], ?_, ?_⟩
  · intro h
    rw [hc]
    simp [success_doc, altman_z_score, altman_reason, h]
  · intro h
    obtain ⟨qa, qb, qc, qd, qe, ea, eb, ec, ed, ee⟩ := altman_components_fin h
    refine ⟨qa, qb, qc, qd, qe, ea, eb, ec, ed, ee, ?_, ?_⟩
    · rw [hc]
      have hf : altman_formula d =
          FVal.fin (1.2 * qa + 1.4 * qb + 3.3 * qc + 0.6 * qd + 1.0 * qe) := by
        simp only [altman_formula, ea, eb, ec, ed, ee, FVal.fadd, FVal.fmul]
      simp [success_doc, altman_z_score, h, hf, fround4]
    · rw [hc]
      simp [success_doc, altman_reason, h]

/-- Witness for C8: a fully populated statement set (all five components
numeric) and an empty one (all five missing). -/
theorem C8_witness :
    (compute_all "T" rawFull none).altman.reason = none ∧
    (compute_all "T" rawBare none).altman.z = none ∧
    (compute_all "T" rawBare none).altman.reason = some altman_reason_text := by
  have hTCA : TotalCurrentAssets_t dFull = FVal.fin 300 := by decide
  have hTCL : TotalCurrentLiabilities_t dFull = FVal.fin 150 := by decide
  have hTA : TotalAssets_t dFull = FVal.fin 1000 := by decide
  have hRE : retained_earnings dFull = FVal.fin 100 := by decide
  have hOI : OperatingIncome_t dFull = FVal.fin 250 := by decide
  have hTSE : TotalStockholderEquity_t dFull = FVal.fin 400 := by decide
  have hTL : TotalLiabilities_t dFull = FVal.fin 600 := by decide
  have hTR : TotalRevenue_t dFull = FVal.fin 1000 := by decide
  have fa : (altman_a dFull).isna = false := by
    norm_num [altman_a, working_capital, hTCA, hTCL, hTA, safe_div, FVal.isna, FVal.fabs,
      FVal.flt, FVal.fdiv, FVal.isinf, FVal.fsub, FVal.fneg, FVal.fadd, divEps, abs_of_pos]
  have fb : (altman_b dFull).isna = false := by
    norm_num [altman_b, hRE, hTA, safe_div, FVal.isna, FVal.fabs, FVal.flt, FVal.fdiv,
      FVal.isinf, divEps, abs_of_pos]
  have fc : (altman_c dFull).isna = false := by
    norm_num [altman_c, ebit, hOI, hTA, safe_div, FVal.isna, FVal.fabs, FVal.flt, FVal.fdiv,
      FVal.isinf, divEps, abs_of_pos]
  have fd : (altman_d dFull).isna = false := by
    norm_num [altman_d, hTSE, hTL, safe_div, FVal.isna, FVal.fabs, FVal.flt, FVal.fdiv,
      FVal.isinf, divEps, abs_of_pos]
  have fe : (altman_e dFull).isna = false := by
    norm_num [altman_e, hTR, hTA, safe_div, FVal.isna, FVal.fabs, FVal.flt, FVal.fdiv,
      FVal.isinf, divEps, abs_of_pos]
  have hAny : (altman_components dFull).any (fun c => c.isna) = false := by
    simp [altman_components, fa, fb, fc, fd, fe]
  have h1 := (C8_altman_all_or_nothing "T" rawFull dFull none hselFull).2.2 hAny
  obtain ⟨_, _, _, _, _, _, _, _, _, _, _, hr⟩ := h1
  have h2 := (C8_altman_all_or_nothing "T" rawBare dBare none hselBare).2.1 (by decide)
  exact ⟨hr, h2.1, h2.2⟩

lemma find?_nonnull (pre post : List FVal) (v : FVal)
    (hpre : ∀ u ∈ pre, u.isna = true) (hv : v.isna = false) :
    (pre ++ v :: post).find? (fun u => !u.isna) = some v := by
  induction pre with
  | nil =>
    simp only [List.nil_append]
    rw [List.find?_cons_of_pos]
    simp [hv]
  | cons a pre ih =>
    simp only [List.cons_append]
    rw [List.find?_cons_of_neg]
    · exact ih (fun u hu => hpre u (List.mem_cons_of_mem a hu))
    · simp [hpre a (List.mem_cons_self a pre)]

lemma firstNonNull_all_nan {vals : List FVal} {df : FVal} (h : ∀ v ∈ vals, v.isna = true) :
    firstNonNull vals df = df := by
  unfold firstNonNull
  have hfind : vals.find? (fun v => !v.isna) = none := by
    rw [List.find?_eq_none]
    intro v hv
    simp [h v hv]
  rw [hfind]

/-- C9 (confirmed): `safe_get_field` with a requested period that is not
among the row's columns falls back to the first non-missing value of the row
across any period; the NaN default is returned only when the row is absent,
when the requested period exists but its cell is missing, or when every cell
of the row is missing. -/
theorem C9_safe_get_field_fallback (df : DF) (f : String) (y : Nat) :
    (df.rows.find? (fun r => r.1 == f) = none → safe_get_field df [f] (some y) = FVal.nan) ∧
    (∀ row, df.rows.find? (fun r => r.1 == f) = some row →
      (y ∉ df.cols →
        ((∀ pre v post, row.2 = pre ++ v :: post → (∀ u ∈ pre, u.isna = true) →
            v.isna = false → safe_get_field df [f] (some y) = v) ∧
         ((∀ u ∈ row.2, u.isna = true) → safe_get_field df [f] (some y) = FVal.nan))) ∧
      (y ∈ df.cols → ∀ v, lookupCell df.cols row.2 y = some v → v.isna = true →
        safe_get_field df [f] (some y) = FVal.nan)) := by
  constructor
  · intro h
    simp [safe_get_field, h]
  · intro row hrow
    constructor
    · intro hy
      constructor
      · intro pre v post hdec hpre hv
        simp only [safe_get_field, hrow]
        rw [if_neg hy]
        unfold firstNonNull
        rw [hdec, find?_nonnull pre post v hpre hv]
      · intro hall
        simp only [safe_get_field, hrow]
        rw [if_neg hy]
        exact firstNonNull_all_nan hall
    · intro hy v hcell hisna
      simp only [safe_get_field, hrow]
      rw [if_pos hy, hcell]
      simp [hisna]

/-- Witness for C9: a table over periods 3 and 2 whose only row is NaN at
period 3 and 5 at period 2; requesting the absent period 7 silently yields
period 2's value, while requesting period 3 (present but missing) yields the
default. -/
theorem C9_witness :
    safe_get_field dfGap ["TotalAssets"] (some 7) = FVal.fin 5 ∧
    safe_get_field dfGap ["TotalAssets"] (some 3) = FVal.nan := by
  have h7 := C9_safe_get_field_fallback dfGap "TotalAssets" 7
  have h3 := C9_safe_get_field_fallback dfGap "TotalAssets" 3
  constructor
  · exact ((h7.2 ("TotalAssets", [FVal.nan, FVal.fin 5]) (by decide)).1 (by decide)).1
      [FVal.nan] (FVal.fin 5) [] rfl (by decide) rfl
  · exact (h3.2 ("TotalAssets", [FVal.nan, FVal.fin 5]) (by decide)).2 (by decide)
      FVal.nan (by decide) rfl

lemma flt_of_isna_left {a : FVal} (b : FVal) (h : a.isna = true) : FVal.flt a b = false := by
  rw [isna_iff.mp h]
  exact flt_nan_left b

lemma flt_of_isna_right (a : FVal) {b : FVal} (h : b.isna = true) : FVal.flt a b = false := by
  rw [isna_iff.mp h]
  exact flt_nan_right a

/-- C10 (confirmed): on the success path the Piotroski signals and the total
score are always numeric (never the unknown marker), each signal is 0 or 1,
and every signal whose comparison has a NaN operand evaluates to 0 — in
particular F7 is 0 when shares outstanding is unknown. -/
theorem C10_nan_signals_zero (ticker : String) (raw : RawData) (d : SelData)
    (alphaExt : Option ℚ) (hsel : select_two_years raw = Except.ok d) :
    (compute_all ticker raw alphaExt).piotroski.score = some (piotroski_score d) ∧
    (compute_all ticker raw alphaExt).piotroski.signals = piotroski_signals d ∧
    (∀ p ∈ piotroski_signals d, p.2 = 0 ∨ p.2 = 1) ∧
    ((ROA_t d).isna = true → F1 d = 0) ∧
    ((CFO_t d).isna = true → F2 d = 0) ∧
    ((ROA_t d).isna = true ∨ (ROA_t1 d).isna = true → F3 d = 0) ∧
    ((CFO_t d).isna = true ∨ (NetIncome_t d).isna = true → F4 d = 0) ∧
    ((safe_div (TotalLiabilities_t d) (TotalAssets_t d)).isna = true ∨
      (safe_div (TotalLiabilities_t1 d) (TotalAssets_t1 d)).isna = true → F5 d = 0) ∧
    ((safe_div (TotalCurrentAssets_t d) (TotalCurrentLiabilities_t d)).isna = true ∨
      (safe_div (TotalCurrentAssets_t1 d) (TotalCurrentLiabilities_t1 d)).isna = true →
      F6 d = 0) ∧
    ((shares d).isna = true → F7 d = 0) ∧
    ((safe_div (GrossProfit_t d) (TotalRevenue_t d)).isna = true ∨
      (safe_div (GrossProfit_t1 d) (TotalRevenue_t1 d)).isna = true → F8 d = 0) ∧
    ((safe_div (TotalRevenue_t d) (TotalAssets_t d)).isna = true ∨
      (safe_div (TotalRevenue_t1 d) (TotalAssets_t1 d)).isna = true → F9 d = 0) := by
  have hc : compute_all ticker raw alphaExt = success_doc ticker d alphaExt := by
    simp [compute_all, hsel]
  refine ⟨by rw [hc]; rfl, by rw [hc]; rfl, ?_, ?_, ?_, ?_, ?_, ?_, ?_, ?_, ?_, ?_⟩
  · intro p hp
    simp only [piotroski_signals, List.mem_cons, List.not_mem_nil, or_false] at hp
    rcases hp with h | h | h | h | h | h | h | h | h <;> subst h <;> exact ite_zero_one
  · intro h
    unfold F1
    rw [flt_of_isna_right _ h]
    rfl
  · intro h
    unfold F2
    rw [flt_of_isna_right _ h]
    rfl
  · intro h
    unfold F3
    rcases h with h | h
    · rw [flt_of_isna_right _ h]
      rfl
    · rw [flt_of_isna_left _ h]
      rfl
  · intro h
    unfold F4
    rcases h with h | h
    · rw [flt_of_isna_right _ h]
      rfl
    · rw [flt_of_isna_left _ h]
      rfl
  · intro h
    unfold F5
    rcases h with h | h
    · rw [flt_of_isna_left _ h]
      rfl
    · rw [flt_of_isna_right _ h]
      rfl
  · intro h
    unfold F6
    rcases h with h | h
    · rw [flt_of_isna_right _ h]
      rfl
    · rw [flt_of_isna_left _ h]
      rfl
  · intro h
    unfold F7
    rw [isna_iff.mp h]
    rfl
  · intro h
    unfold F8
    rcases h with h | h
    · rw [flt_of_isna_right _ h]
      rfl
    · rw [flt_of_isna_left _ h]
      rfl
  · intro h
    unfold F9
    rcases h with h | h
    · rw [flt_of_isna_right _ h]
      rfl
    · rw [flt_of_isna_left _ h]
      rfl

/-- Witness for C10: on the all-missing input every signal operand is NaN and
every signal evaluates to 0. -/
theorem C10_witness :
    F1 dBare = 0 ∧ F2 dBare = 0 ∧ F3 dBare = 0 ∧ F4 dBare = 0 ∧ F5 dBare = 0 ∧
    F6 dBare = 0 ∧ F7 dBare = 0 ∧ F8 dBare = 0 ∧ F9 dBare = 0 := by
  obtain ⟨_, _, _, h1, h2, h3, h4, h5, h6, h7, h8, h9⟩ :=
    C10_nan_signals_zero "T" rawBare dBare none hselBare
  exact ⟨h1 (by decide), h2 (by decide), h3 (Or.inl (by decide)), h4 (Or.inl (by decide)),
    h5 (Or.inl (by decide)), h6 (Or.inl (by decide)), h7 (by decide),
    h8 (Or.inl (by decide)), h9 (Or.inl (by decide))⟩
